import Mathlib

/-!
Verification development for hotfix-1np-responses-20210317.py, a batch
script that reshapes a JSON export of study activity responses into flat
per-activity records.

The script is embedded shallowly:

* Python dicts that are built key-by-key (`parsed_record`, `output_data`,
  `participant_responses`, the health accumulator) become association
  lists with Python's dict-assignment semantics: assigning to an existing
  key updates it in place, assigning to a fresh key appends it.
* Python scalar values become the `Val` sum type; floats become `Rat`
  (exact for the integral values the claims exercise).
* `datetime.fromisoformat(...)` / `.timestamp()` / `.fromtimestamp(...)`
  are modelled for a process-local timezone that is a fixed UTC offset
  `tz` in seconds (no DST): a naive local civil time maps to epoch
  seconds via the proleptic Gregorian calendar.  Fractional seconds are
  not modelled (the parser accepts the plain 19-character form).
* Exceptions become `Except`/`Option`; Python's `try` blocks that mutate
  `parsed_record` before raising are modelled by normalizers of type
  `Except ParsedRecord ParsedRecord`, whose error value carries the
  partially-built record exactly as the in-place mutation would leave it.
* The `re` pattern of line 107 is embedded as an explicit backtracking
  matcher with Python's leftmost/greedy semantics for this concrete
  pattern (greedy `.+` preferring the longest extent, a color
  alternation whose branches start with distinct letters, and a
  `\s(\d+)\s*$` tail).

Reading of stdin/files, CSV serialization and logging are outside every
claim and are not embedded; the record loop of `main` (lines 112-210) is
embedded as `processRecord`/`mainLoop`.
-/

set_option maxRecDepth 10000

/-- Scalar cell values of a parsed record (Python str/int/float/bool/None). -/
inductive Val where
  | str (s : String)
  | int (n : Int)
  | num (q : Rat)
  | bool (b : Bool)
  | null
deriving DecidableEq, Repr

/-- A Python dict with string keys, as an insertion-ordered association list. -/
abbrev ParsedRecord := List (String × Val)

/-- First-occurrence lookup in an association list (dict subscript / `.get`). -/
def alookup {α : Type} (l : List (String × α)) (k : String) : Option α :=
  match l with
  | [] => none
  | p :: rest => if p.1 = k then some p.2 else alookup rest k

/-- Update the first occurrence of a key, leaving the list unchanged if absent. -/
def aset {α : Type} (l : List (String × α)) (k : String) (v : α) : List (String × α) :=
  match l with
  | [] => []
  | p :: rest => if p.1 = k then (k, v) :: rest else p :: aset rest k v

/-- Python dict assignment `d[k] = v`: update in place when the key exists,
append at the end otherwise. -/
def dinsert {α : Type} (l : List (String × α)) (k : String) (v : α) :
    List (String × α) :=
  if (alookup l k).isSome then aset l k v else l ++ [(k, v)]

/-- Lookup in a `ParsedRecord` (reading `parsed_record[k]`). -/
def dlookup (l : ParsedRecord) (k : String) : Option Val := alookup l k

/-! ### Calendar arithmetic (model of `datetime`)

`daysFromCivil`/`civilFromDays` convert between a proleptic Gregorian
date and its day number relative to 1970-01-01, with floor semantics on
every division (all divisors are positive, so `Int.ediv` is floor
division, matching Python's `//`). -/

/-- A naive `datetime.datetime` (what `fromisoformat` returns). -/
structure PyDateTime where
  year : Int
  month : Int
  day : Int
  hour : Int
  minute : Int
  second : Int
deriving DecidableEq, Repr

/-- Days since 1970-01-01 of a Gregorian civil date. -/
def daysFromCivil (y m d : Int) : Int :=
  let y1 : Int := y - (if m ≤ 2 then 1 else 0)
  let era : Int := y1 / 400
  let yoe : Int := y1 - era * 400
  let doy : Int := (153 * (m + (if m > 2 then -3 else 9)) + 2) / 5 + d - 1
  let doe : Int := yoe * 365 + yoe / 4 - yoe / 100 + doy
  era * 146097 + doe - 719468

/-- Gregorian civil date (year, month, day) of a day number since 1970-01-01. -/
def civilFromDays (z0 : Int) : Int × Int × Int :=
  let z : Int := z0 + 719468
  let era : Int := z / 146097
  let doe : Int := z - era * 146097
  let yoe : Int :=
    (doe - doe / 1460 + doe / 36524 - doe / 146096) / 365
  let y : Int := yoe + era * 400
  let doy : Int := doe - (365 * yoe + yoe / 4 - yoe / 100)
  let mp : Int := (5 * doy + 2) / 153
  let d : Int := doy - (153 * mp + 2) / 5 + 1
  let m : Int := mp + (if mp < 10 then 3 else -9)
  (y + (if m ≤ 2 then 1 else 0), m, d)

/-- Gregorian leap-year test. -/
def isLeap (y : Int) : Bool :=
  (y % 4 == 0 && y % 100 != 0) || y % 400 == 0

/-- Length of a month, for `fromisoformat` validation. -/
def daysInMonth (y m : Int) : Int :=
  if m = 2 then (if isLeap y then 29 else 28)
  else if m = 4 ∨ m = 6 ∨ m = 9 ∨ m = 11 then 30
  else 31

/-- Numeric value of one ASCII digit. -/
def digitVal (c : Char) : Option Int :=
  if c.isDigit then some (Int.ofNat (c.toNat - 48)) else none

/-- Two-digit field of an ISO timestamp. -/
def twoDigits (a b : Char) : Option Int :=
  match digitVal a, digitVal b with
  | some x, some y => some (10 * x + y)
  | _, _ => none

/-- Four-digit field of an ISO timestamp. -/
def fourDigits (a b c d : Char) : Option Int :=
  match digitVal a, digitVal b, digitVal c, digitVal d with
  | some w, some x, some y, some z => some (1000 * w + 100 * x + 10 * y + z)
  | _, _, _, _ => none

/-- Model of `datetime.fromisoformat` restricted to the 19-character
`YYYY-MM-DD*HH:MM:SS` form (any single separator character, as Python
accepts); `none` models the `ValueError` raised on any other input. -/
def isoParse (s : String) : Option PyDateTime :=
  match s.data with
  | [y1, y2, y3, y4, c1, m1, m2, c2, d1, d2, _, h1, h2, c3, n1, n2, c4, s1, s2] =>
    if c1 = '-' ∧ c2 = '-' ∧ c3 = ':' ∧ c4 = ':' then
      match fourDigits y1 y2 y3 y4, twoDigits m1 m2, twoDigits d1 d2,
          twoDigits h1 h2, twoDigits n1 n2, twoDigits s1 s2 with
      | some y, some mo, some da, some h, some mi, some se =>
        if 1 ≤ y ∧ y ≤ 9999 ∧ 1 ≤ mo ∧ mo ≤ 12 ∧ 1 ≤ da ∧ da ≤ daysInMonth y mo ∧
            h ≤ 23 ∧ mi ≤ 59 ∧ se ≤ 59 then
          some ⟨y, mo, da, h, mi, se⟩
        else none
      | _, _, _, _, _, _ => none
    else none
  | _ => none

/-- Model of naive `datetime.timestamp()` when the process-local timezone is a
fixed UTC offset of `tz` seconds: epoch seconds of the local civil time. -/
def timestampOf (tz : Int) (dt : PyDateTime) : Int :=
  86400 * daysFromCivil dt.year dt.month dt.day +
    3600 * dt.hour + 60 * dt.minute + dt.second - tz

/-- Zero-padded two-digit rendering used by `strftime` month/day fields. -/
def pad2 (n : Int) : String := if n < 10 then "0" ++ Int.repr n else Int.repr n

/-- Rendering of a civil date in `%Y%m%d` form (years of four digits). -/
def formatYmd (ymd : Int × Int × Int) : String :=
  Int.repr ymd.1 ++ pad2 ymd.2.1 ++ pad2 ymd.2.2

/-- Model of `datetime.fromtimestamp(t).strftime("%Y%m%d")` under the fixed
local UTC offset `tz`. -/
def strftimeYmd (tz : Int) (t : Int) : String :=
  formatYmd (civilFromDays ((t + tz) / 86400))

/-- Lines 254-257: epoch seconds of the start, floored to the preceding UTC
midnight with `% 86400`, rendered back as a local `%Y%m%d` date. -/
def dateAsNumber (tz : Int) (dt : PyDateTime) : String :=
  let start_time : Int := timestampOf tz dt
  let diff_to_previous_date : Int := start_time % 86400
  let previous_date : Int := start_time - diff_to_previous_date
  strftimeYmd tz previous_date

/-! ### The Stroop description pattern (line 107)

`^.+(Green|Red|Yellow|Blue).+(Green|Red|Yellow|Blue).+\s(\d+)\s*$` with
`re.IGNORECASE`, embedded as an explicit backtracking matcher.  The
continuation-passing `dotStarGreedy` tries the longest extent of a
greedy `.*` first, exactly as the `re` engine backtracks; `.` matches
any character except a newline. -/

/-- ASCII lowering, for the case-insensitive flag. -/
def asciiLower (c : Char) : Char :=
  if 65 ≤ c.toNat ∧ c.toNat ≤ 90 then Char.ofNat (c.toNat + 32) else c

/-- Python `\s` (ASCII whitespace). -/
def isSpaceCh (c : Char) : Bool :=
  c = ' ' ∨ c = '\t' ∨ c = '\n' ∨ c = '\r' ∨ c = '\x0b' ∨ c = '\x0c'

/-- Python `\d` (ASCII digits; the descriptions are ASCII). -/
def isDigitCh (c : Char) : Bool := '0' ≤ c ∧ c ≤ '9'

/-- Case-insensitive literal match at the head of the input, returning the
original (uncased) matched characters and the remainder. -/
def litMatch (lit : List Char) (s : List Char) : Option (List Char × List Char) :=
  match lit, s with
  | [], rest => some ([], rest)
  | _ :: _, [] => none
  | l :: ls, c :: cs =>
    if asciiLower c = asciiLower l then
      match litMatch ls cs with
      | some (cap, rest) => some (c :: cap, rest)
      | none => none
    else none

/-- The alternation `(Green|Red|Yellow|Blue)` at the head of the input; the
branches begin with distinct letters, so at most one applies, as in the
`re` engine's ordered alternation. -/
def colorAlt (s : List Char) : Option (List Char × List Char) :=
  match litMatch "Green".data s with
  | some r => some r
  | none =>
    match litMatch "Red".data s with
    | some r => some r
    | none =>
      match litMatch "Yellow".data s with
      | some r => some r
      | none => litMatch "Blue".data s

/-- Greedy `.*` before the continuation `k`: the longest extent whose
remainder satisfies `k` wins, matching `re` backtracking order. -/
def dotStarGreedy {α : Type} (k : List Char → Option α) : List Char → Option α
  | [] => k []
  | c :: rest =>
    if c = '\n' then k (c :: rest)
    else
      match dotStarGreedy k rest with
      | some v => some v
      | none => k (c :: rest)

/-- Greedy `.+` before the continuation `k`. -/
def dotPlusGreedy {α : Type} (k : List Char → Option α) (s : List Char) : Option α :=
  match s with
  | [] => none
  | c :: rest => if c = '\n' then none else dotStarGreedy k rest

/-- The tail `\s(\d+)\s*$`: one whitespace, a maximal digit run (captured),
then only whitespace to the end of the input. -/
def numTail (s : List Char) : Option String :=
  match s with
  | [] => none
  | c :: rest =>
    if isSpaceCh c then
      let ds := rest.takeWhile isDigitCh
      let rem := rest.dropWhile isDigitCh
      if ds ≠ [] ∧ rem.all isSpaceCh then some ds.asString else none
    else none

/-- The suffix `(Green|...|Blue).+\s(\d+)\s*$` anchored at the head. -/
def colorThenTail (s : List Char) : Option (String × String) :=
  match colorAlt s with
  | some (cap, rest) =>
    match dotPlusGreedy numTail rest with
    | some n => some (cap.asString, n)
    | none => none
  | none => none

/-- The suffix `(Green|...)(.+)(Green|...).+\s(\d+)\s*$` anchored at the head:
first captured color, then greedily the second color and the number. -/
def colorThenRest (s : List Char) : Option (String × String × String) :=
  match colorAlt s with
  | some (cap, rest) =>
    match dotPlusGreedy colorThenTail rest with
    | some (c2, n) => some (cap.asString, c2, n)
    | none => none
  | none => none

/-- `pattern.match(description)` for the compiled pattern of line 107:
`some (color, spelling, number)` gives the three capture groups. -/
def stroopMatch (s : String) : Option (String × String × String) :=
  dotPlusGreedy colorThenRest s.data

/-! ### Record payloads

Nested JSON fragments are embedded at the granularity the script
observes them: `Option` at a key models presence of that key (`none`
raises `KeyError` where the script subscripts unconditionally), an inner
`Option` models JSON `null`, and `Except Unit` models a `json.loads`
(or equivalent) failure inside one of the guarded `try` blocks. -/

/-- One `data.timestamps` object (all five keys the script reads). -/
structure TimestampsJson where
  start : String
  end_ : String
  scheduled_start : String
  scheduled_end : String
  submitted : String
deriving DecidableEq, Repr

/-- The `metadata.activity` entry as the script distinguishes it:
key absent, JSON null, an object without `short_name` (subscripting
raises), or an object carrying a short name. -/
inductive ActivityField where
  | absent
  | null
  | missingShortName
  | shortName (s : String)
deriving DecidableEq, Repr

/-- The `metadata.app` object (`version`, `build`, `device.tz`); a `none`
field models the corresponding key being missing, which raises. -/
structure AppJson where
  version : Option String
  build : Option String
  tz : Option String
deriving DecidableEq, Repr

/-- A parsed `metadata` JSON sub-field. -/
structure MetaJson where
  activity : ActivityField
  app : Option AppJson
deriving DecidableEq, Repr

/-- A parsed `study` JSON sub-field; missing `short_name`/`version` keys
raise where the script subscripts them. -/
structure StudyJson where
  short_name : Option String
  version : Option Val
deriving DecidableEq, Repr

/-- One Stroop interaction: `time` and `correctness` keys (subscripted
unconditionally, so `none` raises) holding possibly-null values, and the
`description` key whose absence is caught by the `except KeyError` of
line 310. -/
structure StroopInteraction where
  time : Option (Option String)
  correctness : Option (Option Bool)
  description : Option String
deriving DecidableEq, Repr

/-- One tapping interaction; only `description` is read, and its absence
raises an uncaught `KeyError`. -/
structure TapInteraction where
  description : Option String
deriving DecidableEq, Repr

/-- One health-data block (`type`, `dateFrom`, `dateTo`, `value`); the
value is the result of `float(block["value"])`. -/
structure HealthBlock where
  type : String
  dateFrom : String
  dateTo : String
  value : Rat
deriving DecidableEq, Repr

/-- One intake question as the extraction of line 270 sees it: a text
answer, a `KeyError` somewhere along `results.answer[0].text` (caught by
the group handler of line 271), or an `IndexError` from `answer[0]`
(uncaught there, propagating to the caller). -/
inductive IntakeQuestion where
  | text (s : String)
  | keyErr
  | idxErr
deriving DecidableEq, Repr

/-- One intake question group: `keyErr` models a `KeyError` raised at
`data["results"][g]["results"]`. -/
inductive IntakeGroup where
  | keyErr
  | ok (questions : List (String × IntakeQuestion))
deriving DecidableEq, Repr

/-- One mood-questionnaire question; `.error` models an exception raised
while extracting `question["results"]["answer"][0]["text"]`. -/
abbrev MoodQuestion := Except Unit String

/-- A parsed `data` JSON sub-field, viewed through every path the script
reads.  A `none` at `results_stroop`/`results_tapping`/`results_health`
models a `KeyError` along the corresponding nested path; an absent
top-level `results` for the intake questionnaire behaves as every group
key missing, which the empty list models. -/
structure DataJson where
  timestamps : Option TimestampsJson
  results_stroop : Option (List StroopInteraction)
  results_tapping : Option (List TapInteraction)
  results_health : Option (List HealthBlock)
  results_intake : List (String × IntakeGroup)
  results_questions : Option (List (String × MoodQuestion))
  results_question10 : Option MoodQuestion

/-- Result of a normalizer that mutates `parsed_record` in place: the
error case carries the record exactly as the mutation left it when the
exception was raised. -/
abbrev MRes := Except ParsedRecord ParsedRecord

/-- Lines 248-257 (`_process_timestamps`): the five verbatim timestamp
columns, then the derived `Date_as_Number`; `fromisoformat` failure
raises after the five columns are set. -/
def _process_timestamps (tz : Int) (data : DataJson) (pr0 : ParsedRecord) : MRes :=
  match data.timestamps with
  | none => .error pr0
  | some ts =>
    let pr1 := dinsert pr0 "time_start" (.str ts.start)
    let pr2 := dinsert pr1 "time_end" (.str ts.end_)
    let pr3 := dinsert pr2 "time_scheduled_start" (.str ts.scheduled_start)
    let pr4 := dinsert pr3 "time_scheduled_end" (.str ts.scheduled_end)
    let pr5 := dinsert pr4 "submitted_at" (.str ts.submitted)
    match isoParse ts.start with
    | none => .error pr5
    | some dt => .ok (dinsert pr5 "Date_as_Number" (.str (dateAsNumber tz dt)))

/-- Column name of slot `i` (0-based) with the given tail, e.g.
`Inter3_Color`. -/
def interCol (i : Nat) (tail : String) : String :=
  "Inter" ++ Nat.repr (i + 1) ++ tail

/-- The Python local variable `matcher` of line 309: `none` while still
unbound (using it raises `NameError`), `some m` after an assignment with
match result `m`. -/
abbrev MatcherState := Option (Option (String × String × String))

/-- Lines 296-299: the slot's interaction, or the default dict of line
299 past the end of the list (`IndexError`). -/
def slotInteraction (interactions : List StroopInteraction) (i : Nat) :
    StroopInteraction :=
  match interactions.get? i with
  | some it => it
  | none => { time := some none, correctness := some none, description := none }

/-- One iteration of the Stroop slot loop (lines 295-322) at slot `i`,
over the current `parsed_record` and `matcher` variable. -/
def stroopSlot (interactions : List StroopInteraction)
    (st : ParsedRecord × MatcherState) (i : Nat) :
    Except ParsedRecord (ParsedRecord × MatcherState) :=
  let interaction : StroopInteraction := slotInteraction interactions i
  match interaction.time with
  | none => .error st.1
  | some tval =>
    let pr1 := dinsert st.1 (interCol i "_Date_Time")
      (match tval with
       | some s => if s = "" then Val.null else Val.str s
       | none => Val.null)
    match interaction.correctness with
    | none => .error pr1
    | some cv =>
      let pr2 := dinsert pr1 (interCol i "_Correct")
        (match cv with
         | some b => Val.bool b
         | none => Val.null)
      let m : MatcherState :=
        match interaction.description with
        | some d => some (stroopMatch d)
        | none => st.2
      match m with
      | none => .error pr2
      | some (some caps) =>
        let pr3 := dinsert pr2 (interCol i "_Color") (Val.str caps.1)
        .ok (dinsert pr3 (interCol i "_Spelling") (Val.str caps.2.1), m)
      | some none =>
        let pr3 := dinsert pr2 (interCol i "_Color") Val.null
        .ok (dinsert pr3 (interCol i "_Spelling") Val.null, m)

/-- The Stroop slot loop over a list of slot indices. -/
def stroopSlots (interactions : List StroopInteraction) :
    List Nat → ParsedRecord × MatcherState →
    Except ParsedRecord (ParsedRecord × MatcherState)
  | [], st => .ok st
  | i :: rest, st =>
    match stroopSlot interactions st i with
    | .error pr => .error pr
    | .ok st2 => stroopSlots interactions rest st2

/-- Lines 291-322 (`_process_task_stroop`): timestamps, then the fixed
loop `for i in range(30)`. -/
def _process_task_stroop (tz : Int) (data : DataJson) (pr0 : ParsedRecord) : MRes :=
  match _process_timestamps tz data pr0 with
  | .error pr => .error pr
  | .ok pr =>
    match data.results_stroop with
    | none => .error pr
    | some interactions =>
      match stroopSlots interactions (List.range 30) (pr, none) with
      | .error pr2 => .error pr2
      | .ok st => .ok st.1

/-- Python `str.lower()` on the ASCII range. -/
def lowerStr (s : String) : String := ⟨s.data.map asciiLower⟩

/-- Whether the first list is a leading segment of the second. -/
def leadsWith : List Char → List Char → Bool
  | [], _ => true
  | _ :: _, [] => false
  | x :: xs, y :: ys => x = y && leadsWith xs ys

/-- Python substring containment `needle in hay` on character lists. -/
def occursIn (needle : List Char) : List Char → Bool
  | [] => needle.isEmpty
  | c :: rest => leadsWith needle (c :: rest) || occursIn needle rest

/-- Python `' right ' in interaction['description'].lower()`. -/
def hasRightWord (d : String) : Bool := occursIn " right ".data (lowerStr d).data

/-- Python `' left ' in interaction['description'].lower()`. -/
def hasLeftWord (d : String) : Bool := occursIn " left ".data (lowerStr d).data

/-- The five tapping counters of lines 329-333. -/
structure TapCounts where
  correct_right : Nat
  correct_left : Nat
  incorrect_right : Nat
  incorrect_left : Nat
  missing_data : Nat
deriving DecidableEq, Repr

/-- Lines 336-365: the classification loop over all interactions past the
first, each compared with its predecessor.  The final `else` of line 364
is kept exactly as written. -/
def tappingLoop (prev : TapInteraction) (rest : List TapInteraction)
    (acc : TapCounts) : Except Unit TapCounts :=
  match rest with
  | [] => .ok acc
  | cur :: more =>
    match prev.description, cur.description with
    | some dPrev, some dCur =>
      if dPrev ≠ dCur then
        let modifier : Nat := if true then 1 else 0
        let acc2 :=
          if hasRightWord dCur then { acc with correct_right := acc.correct_right + modifier }
          else if hasLeftWord dCur then { acc with correct_left := acc.correct_left + modifier }
          else acc
        tappingLoop cur more acc2
      else if dPrev = dCur then
        let modifier : Nat := if true then 1 else 0
        let acc2 :=
          if hasRightWord dCur then { acc with incorrect_right := acc.incorrect_right + modifier }
          else if hasLeftWord dCur then { acc with incorrect_left := acc.incorrect_left + modifier }
          else acc
        tappingLoop cur more acc2
      else
        tappingLoop cur more { acc with missing_data := acc.missing_data + 1 }
    | _, _ => .error ()

/-- Lines 325-372 (`_process_task_tapping`). -/
def _process_task_tapping (tz : Int) (data : DataJson) (pr0 : ParsedRecord) : MRes :=
  match _process_timestamps tz data pr0 with
  | .error pr => .error pr
  | .ok pr =>
    match data.results_tapping with
    | none => .error pr
    | some interactions =>
      let res : Except Unit TapCounts :=
        match interactions with
        | [] => .ok ⟨0, 0, 0, 0, 0⟩
        | first :: rest => tappingLoop first rest ⟨0, 0, 0, 0, 0⟩
      match res with
      | .error _ => .error pr
      | .ok c =>
        let pr1 := dinsert pr "Correct_Right_Hand" (.int (Int.ofNat c.correct_right))
        let pr2 := dinsert pr1 "Correct_Left_Hand" (.int (Int.ofNat c.correct_left))
        let pr3 := dinsert pr2 "Incorrect_Right_Hand" (.int (Int.ofNat c.incorrect_right))
        let pr4 := dinsert pr3 "Incorrect_Left_Hand" (.int (Int.ofNat c.incorrect_left))
        .ok (dinsert pr4 "Missing_data" (.int (Int.ofNat c.missing_data)))

/-! ### Health-sensor normalizer (lines 376-477) -/

/-- Python `int()` truncation toward zero on a rational. -/
def ratTrunc (q : Rat) : Int := if 0 ≤ q then ⌊q⌋ else ⌈q⌉

/-- Python `round(x, 2)`'s half-to-even rounding to an integer, on the
ideal (rational) value of the float. -/
def roundHalfEven (q : Rat) : Int :=
  let f := ⌊q⌋
  let r := q - (f : Rat)
  if r < 1 / 2 then f
  else if r > 1 / 2 then f + 1
  else if f % 2 = 0 then f else f + 1

/-- Python `round(x, 2)`. -/
def round2 (q : Rat) : Rat := (roundHalfEven (q * 100) : Rat) / 100

/-- Rendering of a float inside an f-string.  Exact for integer-valued
floats, which is the only case the claims exercise; other rationals get
a fraction rendering standing in for the binary-float repr. -/
def floatRepr (q : Rat) : String :=
  if q.den = 1 then Int.repr q.num ++ ".0"
  else Int.repr q.num ++ "/" ++ Nat.repr q.den

/-- Splitting a character list at `'.'` (Python `str.split(".")`). -/
def splitDotAux : List Char → List Char → List (List Char)
  | [], cur => [cur.reverse]
  | c :: rest, cur =>
    if c = '.' then cur.reverse :: splitDotAux rest []
    else splitDotAux rest (c :: cur)

/-- Lines 438-441: `block_type_key.split(".")[1]` when the key contains a
dot, the key itself otherwise. -/
def colNameOf (key : String) : String :=
  if key.data.any (fun c => c = '.') then
    match splitDotAux key.data [] with
    | _ :: second :: _ => second.asString
    | _ => ""
  else key

/-- Model of `datetime.fromtimestamp(t).isoformat()` under the fixed local
UTC offset `tz` (whole seconds, so no fractional part is rendered). -/
def formatIsoFromTimestamp (tz : Int) (t : Int) : String :=
  let loc := t + tz
  let days := loc / 86400
  let secs := loc % 86400
  let ymd := civilFromDays days
  Int.repr ymd.1 ++ "-" ++ pad2 ymd.2.1 ++ "-" ++ pad2 ymd.2.2 ++ "T" ++
    pad2 (secs / 3600) ++ ":" ++ pad2 ((secs % 3600) / 60) ++
    ":" ++ pad2 (secs % 60)

/-- Per-type accumulator entry of lines 402-429: per-date value sums (an
insertion-ordered dict) and the extreme `dateFrom`/`dateTo` timestamps. -/
structure AccEntry where
  sum : List (String × Rat)
  date_first : Int
  date_last : Int
deriving DecidableEq, Repr

/-- Lines 404-429: one pass over the blocks building the per-type
accumulator; a `fromisoformat` failure raises out of the normalizer. -/
def healthFold (tz : Int) :
    List HealthBlock → List (String × AccEntry) →
    Except Unit (List (String × AccEntry))
  | [], acc => .ok acc
  | block :: rest, acc =>
    match isoParse block.dateFrom with
    | none => .error ()
    | some dtFrom =>
      let date_from := formatYmd (dtFrom.year, dtFrom.month, dtFrom.day)
      match alookup acc block.type with
      | some e =>
        let newSum :=
          match alookup e.sum date_from with
          | some v => aset e.sum date_from (v + block.value)
          | none => e.sum ++ [(date_from, block.value)]
        let current_date_from := timestampOf tz dtFrom
        let date_first :=
          if current_date_from < e.date_first then current_date_from else e.date_first
        match isoParse block.dateTo with
        | none => .error ()
        | some dtTo =>
          let current_date_to := timestampOf tz dtTo
          let date_last :=
            if current_date_to > e.date_last then current_date_to else e.date_last
          healthFold tz rest (aset acc block.type ⟨newSum, date_first, date_last⟩)
      | none =>
        match isoParse block.dateTo with
        | none => .error ()
        | some dtTo =>
          healthFold tz rest
            (acc ++ [(block.type,
              ⟨[(date_from, block.value)], timestampOf tz dtFrom, timestampOf tz dtTo⟩)])

/-- The two hardcoded type keys of line 431. -/
def HEALTH_KEYS : List String :=
  ["HealthDataType.STEPS", "HealthDataType.ACTIVE_ENERGY_BURNED"]

/-- Lines 431-477: the four derived columns for one type key. -/
def healthEmit (tz : Int) (accumulator : List (String × AccEntry)) (pr : ParsedRecord)
    (key : String) : ParsedRecord :=
  let block_type := alookup accumulator key
  let col_name := colNameOf key
  let encoded_columns : Val :=
    match block_type with
    | some e =>
      .str (e.sum.foldl (fun s p => s ++ p.1 ++ "-" ++ floatRepr p.2 ++ "_") "")
    | none => .null
  let pr1 := dinsert pr ("Total_Dates_" ++ col_name) encoded_columns
  let start_time_iso : Val :=
    match block_type with
    | some e => .str (formatIsoFromTimestamp tz e.date_first)
    | none => .null
  let pr2 := dinsert pr1 (col_name ++ "_Session_Start_Time") start_time_iso
  let end_time_iso : Val :=
    match block_type with
    | some e => .str (formatIsoFromTimestamp tz e.date_last)
    | none => .null
  let pr3 := dinsert pr2 (col_name ++ "_Session_End_Time") end_time_iso
  let time_diff : Val :=
    match block_type with
    | some e =>
      let td : Int := e.date_last - e.date_first
      let diff_as_nr : Rat :=
        (ratTrunc ((td : Rat) / 3600) : Rat) + ((td % 3600 : Int) : Rat) / 3600
      .num (round2 diff_as_nr)
    | none => .null
  dinsert pr3 (col_name ++ "_Hours_Range") time_diff

/-- Lines 376-477 (`_process_healthdata`). -/
def _process_healthdata (tz : Int) (data : DataJson) (pr0 : ParsedRecord) : MRes :=
  match _process_timestamps tz data pr0 with
  | .error pr => .error pr
  | .ok pr =>
    match data.results_health with
    | none => .error pr
    | some results =>
      match healthFold tz results [] with
      | .error _ => .error pr
      | .ok accumulator => .ok (HEALTH_KEYS.foldl (healthEmit tz accumulator) pr)

/-! ### Questionnaire normalizers (lines 260-289) -/

/-- Result of the per-group question loop of lines 268-270: complete, or
interrupted by a caught `KeyError`, or by an uncaught `IndexError`; the
columns inserted before the interruption remain. -/
inductive GroupRes where
  | ok (pr : ParsedRecord)
  | keyErr (pr : ParsedRecord)
  | idxErr (pr : ParsedRecord)

/-- The question loop inside one intake group. -/
def intakeGroupLoop (pr : ParsedRecord) :
    List (String × IntakeQuestion) → GroupRes
  | [] => .ok pr
  | (k, q) :: rest =>
    match q with
    | .text s => intakeGroupLoop (dinsert pr k (.str s)) rest
    | .keyErr => .keyErr pr
    | .idxErr => .idxErr pr

/-- Lines 265-272: the loop over the fixed group list; a `KeyError`
anywhere in a group is caught and writes a null under the group's own
key, an `IndexError` propagates. -/
def intakeGroups (results : List (String × IntakeGroup)) (pr : ParsedRecord) :
    List String → MRes
  | [] => .ok pr
  | g :: gs =>
    match alookup results g with
    | none => intakeGroups results (dinsert pr g .null) gs
    | some .keyErr => intakeGroups results (dinsert pr g .null) gs
    | some (.ok qs) =>
      match intakeGroupLoop pr qs with
      | .ok pr2 => intakeGroups results pr2 gs
      | .keyErr pr2 => intakeGroups results (dinsert pr2 g .null) gs
      | .idxErr pr2 => .error pr2

/-- The hardcoded group list of lines 262-264. -/
def baseline_question_groups : List String :=
  ["Basic Demographic Information", "Basic Medical Information",
   "blood_circulation_problems", "blood_circulation_type",
   "heart_vascular_disorders", "heart_vascular_type",
   "musculoskeletal_concerns", "musculoskeletal_type",
   "respiratory_concerns", "respiratory_type", "symptoms_list"]

/-- Lines 260-272 (`_process_intake`). -/
def _process_intake (tz : Int) (data : DataJson) (pr0 : ParsedRecord) : MRes :=
  match _process_timestamps tz data pr0 with
  | .error pr => .error pr
  | .ok pr => intakeGroups data.results_intake pr baseline_question_groups

/-- The per-question loop of lines 287-289; an extraction failure
propagates with the columns inserted so far. -/
def moodLoop (pr : ParsedRecord) : List (String × MoodQuestion) → MRes
  | [] => .ok pr
  | (k, q) :: rest =>
    match q with
    | .ok s => moodLoop (dinsert pr k (.str s)) rest
    | .error _ => .error pr

/-- Lines 274-289 (`_process_mood_questionnaires`); the `activity_type`
argument is only printed on a missing block, hence unused here. -/
def _process_mood_questionnaires (tz : Int) (data : DataJson) (pr0 : ParsedRecord)
    (_activity_type : String) : MRes :=
  match _process_timestamps tz data pr0 with
  | .error pr => .error pr
  | .ok pr =>
    let results : List (String × MoodQuestion) :=
      match data.results_questions with
      | some qs => qs
      | none => []
    let results2 :=
      match data.results_question10 with
      | some q => dinsert results "question10" q
      | none => results
    moodLoop pr results2

/-! ### The record loop of `main` (lines 112-210) -/

/-- One raw input record, with the fields the loop reads.  `id`,
`participant_id`, `response_type` and `created_at` are modelled as always
present (the export provides them for every record); the three JSON-string
sub-fields carry their parse outcome. -/
structure RawRecord where
  id : String
  participant_id : String
  response_type : Int
  created_at : String
  study : Option (Except Unit StudyJson)
  metadata : Option (Except Unit MetaJson)
  data : Option (Except Unit DataJson)

/-- The two uncaught `KeyError` sites of the loop: the response-type
lookup of line 119, and the `parsed_record` subscripts of lines 195-198
building `file_key`. -/
inductive RunError where
  | unknownResponseType
  | missingFileKeyField
deriving DecidableEq, Repr

/-- The fixed enumeration of lines 63-67. -/
def RESPONSE_TYPES : List (Int × String) :=
  [(1, "questionnaire"), (2, "task"), (3, "healthdata")]

/-- Lookup by integer code in `RESPONSE_TYPES`. -/
def rlookup (l : List (Int × String)) (k : Int) : Option String :=
  match l with
  | [] => none
  | p :: rest => if p.1 = k then some p.2 else rlookup rest k

/-- Mutable state across loop iterations: the skip tally, the
`participant_responses` counters, the `output_data` buffers, and the
Python local variable `metadata`, which persists between iterations and
is `none` while still unbound. -/
structure RunState where
  skipped : Nat
  participant_responses : List (String × Nat)
  output_data : List (String × List ParsedRecord)
  metadataVar : Option MetaJson
deriving Repr

/-- Lines 126-136: the `study` try block.  Failures are caught, count the
record as skipped, and (because the bare `next` statement of line 136 is
a no-op expression, not `continue`) fall through to the rest of the
iteration. -/
def studyStep (sf : Option (Except Unit StudyJson)) (pr : ParsedRecord)
    (skipped : Nat) : ParsedRecord × Nat :=
  match sf with
  | none => (pr, skipped)
  | some (.error _) => (pr, skipped + 1)
  | some (.ok sj) =>
    match sj.short_name with
    | none => (pr, skipped + 1)
    | some sn =>
      let pr1 := dinsert pr "study" (.str sn)
      match sj.version with
      | none => (pr1, skipped + 1)
      | some v => (dinsert pr1 "study_version" v, skipped)

/-- Lines 148-153: the `app` part of the metadata block. -/
def metadataApp (mj : MetaJson) (pr : ParsedRecord) (skipped : Nat) :
    ParsedRecord × Nat :=
  match mj.app with
  | none => (pr, skipped)
  | some app =>
    match app.version, app.build with
    | some v, some b =>
      let pr1 := dinsert pr "app_version" (.str (v ++ " - " ++ b))
      match app.tz with
      | some t => (dinsert pr1 "timezone" (.str t), skipped)
      | none => (pr1, skipped + 1)
    | _, _ => (pr, skipped + 1)

/-- Lines 138-160: the `metadata` try block.  The local variable
`metadata` is assigned as soon as `json.loads` succeeds, so it updates
even when a later subscript in the block raises; like the study block, a
failure counts the record as skipped and falls through. -/
def metadataStep (md : Option (Except Unit MetaJson)) (pr : ParsedRecord)
    (skipped : Nat) (mvar : Option MetaJson) :
    ParsedRecord × Nat × Option MetaJson :=
  match md with
  | none => (pr, skipped, mvar)
  | some (.error _) => (pr, skipped + 1, mvar)
  | some (.ok mj) =>
    match mj.activity with
    | .shortName s =>
      let r := metadataApp mj (dinsert pr "activity" (.str s)) skipped
      (r.1, r.2, some mj)
    | .missingShortName => (pr, skipped + 1, some mj)
    | .absent =>
      let r := metadataApp mj (dinsert pr "activity" (.str "all")) skipped
      (r.1, r.2, some mj)
    | .null =>
      let r := metadataApp mj (dinsert pr "activity" (.str "all")) skipped
      (r.1, r.2, some mj)

/-- Python substring containment `needle in hay`. -/
def strContains (hay needle : String) : Bool := occursIn needle.data hay.data

/-- Lines 169-186: dispatch on response type and activity short name; the
`metadata` local variable is read again here (lines 170 and 178), raising
inside the guarded block when it is unbound or its activity entry cannot
be subscripted. -/
def dispatchData (tz : Int) (dj : DataJson) (rtype : String)
    (mvar : Option MetaJson) (pr : ParsedRecord) : MRes :=
  if strContains rtype "questionnaire" then
    match mvar with
    | none => .error pr
    | some mj =>
      match mj.activity with
      | .shortName a =>
        if a = "qes_intake" then _process_intake tz dj pr
        else if a = "qes_final" then .ok pr
        else _process_mood_questionnaires tz dj pr a
      | _ => .error pr
  else if strContains rtype "task" then
    match mvar with
    | none => .error pr
    | some mj =>
      match mj.activity with
      | .shortName a =>
        if a = "at_stroopeffect" then _process_task_stroop tz dj pr
        else if a = "at_tapping" then _process_task_tapping tz dj pr
        else .ok pr
      | _ => .error pr
  else if strContains rtype "healthdata" then _process_healthdata tz dj pr
  else .ok pr

/-- Lines 166-193: the `data` try block around the dispatch. -/
def dataStep (tz : Int) (df : Option (Except Unit DataJson)) (rtype : String)
    (mvar : Option MetaJson) (pr : ParsedRecord) (skipped : Nat) :
    ParsedRecord × Nat :=
  match df with
  | none => (pr, skipped)
  | some (.error _) => (pr, skipped + 1)
  | some (.ok dj) =>
    match dispatchData tz dj rtype mvar pr with
    | .ok pr1 => (pr1, skipped)
    | .error pr1 => (pr1, skipped + 1)

/-- Python `'%s' % value` for the values stored in a parsed record. -/
def valToString : Val → String
  | .str s => s
  | .int n => Int.repr n
  | .num q => floatRepr q
  | .bool b => if b then "True" else "False"
  | .null => "None"

/-- Lines 112-210: one iteration of the record loop.  The response-type
lookup (line 119) and the `file_key` construction (lines 195-198) sit
outside every `try`, so their `KeyError`s abort the whole run. -/
def processRecord (tz : Int) (st : RunState) (record : RawRecord) :
    Except RunError RunState :=
  let pid := record.participant_id
  match rlookup RESPONSE_TYPES record.response_type with
  | none => .error .unknownResponseType
  | some rtype =>
    let parsed0 : ParsedRecord :=
      dinsert (dinsert (dinsert [] "id" (.str record.id))
        "participant" (.str pid)) "response_type" (.str rtype)
    let s1 := studyStep record.study parsed0 st.skipped
    let s2 := metadataStep record.metadata s1.1 s1.2 st.metadataVar
    let parsed1 := dinsert s2.1 "received_at" (.str record.created_at)
    let s3 := dataStep tz record.data rtype s2.2.2 parsed1 s2.2.1
    match dlookup s3.1 "response_type", dlookup s3.1 "activity" with
    | some rv, some av =>
      let file_key := valToString rv ++ "-" ++ valToString av
      let output0 :=
        if (alookup st.output_data file_key).isSome then st.output_data
        else st.output_data ++ [(file_key, [])]
      let submission_key := pid ++ ":" ++ file_key
      let counters0 :=
        if (alookup st.participant_responses submission_key).isSome then
          st.participant_responses
        else st.participant_responses ++ [(submission_key, 0)]
      let count := (alookup counters0 submission_key).getD 0 + 1
      let counters1 := aset counters0 submission_key count
      let parsed2 := dinsert s3.1 "submission_index" (.int (Int.ofNat count))
      let output1 :=
        aset output0 file_key (((alookup output0 file_key).getD []) ++ [parsed2])
      .ok ⟨s3.2, counters1, output1, s2.2.2⟩
    | _, _ => .error .missingFileKeyField

/-- The record loop from a given state. -/
def mainLoopFrom (tz : Int) (st : RunState) :
    List RawRecord → Except RunError RunState
  | [] => .ok st
  | r :: rs =>
    match processRecord tz st r with
    | .error e => .error e
    | .ok st2 => mainLoopFrom tz st2 rs

/-- The state before the first iteration (lines 99-102). -/
def initState : RunState := ⟨0, [], [], none⟩

/-- The whole record loop of `main`. -/
def mainLoop (tz : Int) (records : List RawRecord) : Except RunError RunState :=
  mainLoopFrom tz initState records

/-! ### Helper definitions for the statements below -/

/-- The record as a normalizer leaves it, whether it returned or raised
(`parsed_record` is mutated in place, so it survives the exception). -/
def mresRecord : MRes → ParsedRecord
  | .ok r => r
  | .error r => r

/-- A well-formed Stroop interaction: the `time`, `correctness` and
`description` keys are all present. -/
def WfInter (it : StroopInteraction) : Prop :=
  it.time.isSome = true ∧ it.correctness.isSome = true ∧ it.description.isSome = true

instance : DecidablePred WfInter := fun it => by unfold WfInter; infer_instance

/-- The four columns one Stroop slot appends, given the slot's `time`
value, `correctness` value, and the matcher value in force after the
slot's match attempt. -/
def slotCols (tval : Option String) (cv : Option Bool)
    (m : Option (String × String × String)) (pr : ParsedRecord) (i : Nat) :
    ParsedRecord :=
  let pr1 := dinsert pr (interCol i "_Date_Time")
    (match tval with
     | some s => if s = "" then Val.null else Val.str s
     | none => Val.null)
  let pr2 := dinsert pr1 (interCol i "_Correct")
    (match cv with
     | some b => Val.bool b
     | none => Val.null)
  match m with
  | some caps =>
    dinsert (dinsert pr2 (interCol i "_Color") (Val.str caps.1))
      (interCol i "_Spelling") (Val.str caps.2.1)
  | none =>
    dinsert (dinsert pr2 (interCol i "_Color") Val.null)
      (interCol i "_Spelling") Val.null

/-- The four columns one beyond-count Stroop slot appends (null time and
correctness from the line-299 default), given the value the `matcher`
variable is stuck at. -/
def staleSlotCols (m : Option (String × String × String)) (pr : ParsedRecord)
    (i : Nat) : ParsedRecord :=
  slotCols none none m pr i

/-- Keys the record loop itself owns; payload keys equal to one of these
would overwrite the loop's columns. -/
def reservedOk (k : String) : Bool :=
  !(k == "participant") && !(k == "submission_index") &&
    !(k == "activity") && !(k == "response_type")

/-- Whether the questionnaire payloads of a `data` field only carry
question keys distinct from the loop's own column names. -/
def goodData (dj : DataJson) : Bool :=
  (match dj.results_questions with
   | some qs => qs.all (fun p => reservedOk p.1)
   | none => true) &&
  dj.results_intake.all (fun g =>
    match g.2 with
    | .ok qs => qs.all (fun p => reservedOk p.1)
    | .keyErr => true)

/-- A record whose payload cannot overwrite the loop's own columns. -/
def goodRecord (r : RawRecord) : Bool :=
  match r.data with
  | some (.ok dj) => goodData dj
  | _ => true

/-- Participant ids without a colon keep the submission keys
`pid:file_key` unambiguous. -/
def noColonStr (s : String) : Bool := s.data.all (fun c => !(c == ':'))

/-- The records of one participant in an output buffer, in order. -/
def recordsOf (buf : List ParsedRecord) (p : String) : List ParsedRecord :=
  buf.filter (fun r => decide (dlookup r "participant" = some (Val.str p)))

/-- Their `submission_index` column values, in buffer order. -/
def submissionIdxList (buf : List ParsedRecord) (p : String) : List (Option Val) :=
  (recordsOf buf p).map (fun r => dlookup r "submission_index")

/-- The column names of the record loop's own classification and stamp
fields. -/
def ReservedKey (k : String) : Prop :=
  k = "participant" ∨ k = "submission_index" ∨ k = "activity" ∨ k = "response_type"

/-- The final state of a run, with a fallback for the aborted case. -/
def runStateOr (d : RunState) : Except RunError RunState → RunState
  | .ok st => st
  | .error _ => d

/-- The invariant tying the submission counters to the output buffers:
for every group key and colon-free participant, the counter equals the
number of that participant's records in the group's buffer, and those
records carry submission_index 1, 2, ... in buffer order. -/
def CounterInvariant (st : RunState) : Prop :=
  ∀ fk p, noColonStr p = true →
    (alookup st.participant_responses (p ++ ":" ++ fk)).getD 0 =
      (recordsOf ((alookup st.output_data fk).getD []) p).length ∧
    submissionIdxList ((alookup st.output_data fk).getD []) p =
      (List.range (recordsOf ((alookup st.output_data fk).getD []) p).length).map
        (fun i => some (Val.int (Int.ofNat (i + 1))))

/-! ### Association-list lemmas -/

theorem alookup_aset_self {α : Type} (l : List (String × α)) (k : String) (v : α)
    (h : (alookup l k).isSome) : alookup (aset l k v) k = some v := by
  induction l with
  | nil => simp [alookup] at h
  | cons p rest ih =>
    by_cases hk : p.1 = k
    · simp [aset, hk, alookup]
    · simp [aset, hk, alookup]
      simp [alookup, hk] at h
      exact ih h

theorem alookup_aset_other {α : Type} (l : List (String × α)) (k k2 : String) (v : α)
    (h : k2 ≠ k) : alookup (aset l k v) k2 = alookup l k2 := by
  induction l with
  | nil => simp [aset]
  | cons p rest ih =>
    by_cases hk : p.1 = k
    · simp [aset, hk, alookup, Ne.symm h]
    · simp [aset, hk, alookup, ih]

theorem alookup_append_left {α : Type} (l1 l2 : List (String × α)) (k : String)
    (h : (alookup l1 k).isSome) : alookup (l1 ++ l2) k = alookup l1 k := by
  induction l1 with
  | nil => simp [alookup] at h
  | cons p rest ih =>
    by_cases hk : p.1 = k
    · simp [alookup, hk]
    · simp [alookup, hk] at h ⊢
      exact ih h

theorem alookup_append_right {α : Type} (l1 l2 : List (String × α)) (k : String)
    (h : alookup l1 k = none) : alookup (l1 ++ l2) k = alookup l2 k := by
  induction l1 with
  | nil => simp [alookup]
  | cons p rest ih =>
    by_cases hk : p.1 = k
    · simp [alookup, hk] at h
    · simp [alookup, hk] at h ⊢
      exact ih h

theorem alookup_dinsert_self {α : Type} (l : List (String × α)) (k : String) (v : α) :
    alookup (dinsert l k v) k = some v := by
  unfold dinsert
  by_cases h : (alookup l k).isSome
  · simp [h, alookup_aset_self l k v h]
  · simp [h]
    have hnone : alookup l k = none := by
      cases hl : alookup l k with
      | none => rfl
      | some w => rw [hl] at h; simp at h
    rw [alookup_append_right l _ k hnone]
    simp [alookup]

theorem alookup_dinsert_other {α : Type} (l : List (String × α)) (k k2 : String)
    (v : α) (h : k2 ≠ k) : alookup (dinsert l k v) k2 = alookup l k2 := by
  unfold dinsert
  by_cases hs : (alookup l k).isSome
  · simp [hs, alookup_aset_other l k k2 v h]
  · simp [hs]
    by_cases h2 : (alookup l k2).isSome
    · exact alookup_append_left l _ k2 h2
    · have hnone : alookup l k2 = none := by
        cases hl : alookup l k2 with
        | none => rfl
        | some w => rw [hl] at h2; simp at h2
      rw [alookup_append_right l _ k2 hnone, hnone]
      simp [alookup, Ne.symm h]

/-! ### Claims C3 and C4 -/

/-- C3 counterexample: on the description "Say the word GREEN written in
Red ink 42" the pattern does match, but the first capture group — stored
as `Inter{i}_Color` — is "GREEN", not "Red" as the claim states: the
greedy first `.+` makes group 1 the second-to-last color token and group
2 the last one, and here those are "GREEN" and "Red". -/
theorem c3_counterexample :
    stroopMatch "Say the word GREEN written in Red ink 42" =
      some ("GREEN", "Red", "42") ∧
    ¬ (∃ sp n, stroopMatch "Say the word GREEN written in Red ink 42" =
      some ("Red", sp, n)) := by
  constructor
  · decide
  · rintro ⟨sp, n, h⟩
    rw [show stroopMatch "Say the word GREEN written in Red ink 42" =
      some ("GREEN", "Red", "42") by decide] at h
    simp at h

/-- C3 amended: the match on "Say the word GREEN written in Red ink 42"
succeeds with `Inter{i}_Color` = "GREEN" (the second-to-last color token)
and `Inter{i}_Spelling` = "Red" (the last color token before the number);
in general the two captured groups are chosen greedily, which in examples
like "x Green Red Blue 5" — where too little separates the last color
from the trailing number — makes them "Green" and "Red" rather than the
two color tokens adjacent to the number. -/
theorem c3_amended :
    stroopMatch "Say the word GREEN written in Red ink 42" =
      some ("GREEN", "Red", "42") ∧
    stroopMatch "x Green Red Blue 5" = some ("Green", "Red", "5") := by
  constructor
  · decide
  · decide

/-- C4 counterexample: the modulo-86400 truncation floors to the
preceding *UTC* midnight, so under a process-local timezone one hour
east of UTC the start timestamp 2021-03-18T00:00:01 is stamped with
`Date_as_Number` "20210317", not "20210318" as the claim requires. -/
theorem c4_counterexample :
    dateAsNumber 3600 ⟨2021, 3, 18, 0, 0, 1⟩ = "20210317" ∧
    dateAsNumber 3600 ⟨2021, 3, 18, 0, 0, 1⟩ ≠ "20210318" := by
  constructor
  · decide
  · decide

/-- C4 amended: when the process-local timezone is UTC, the three
examples hold — "2021-03-17T14:30:00" and "2021-03-17T23:59:59" yield
"20210317" and "2021-03-18T00:00:01" yields "20210318" — and in general
`Date_as_Number` equals the `%Y%m%d` rendering of the start instant
itself, i.e. the calendar date of the start timestamp; under a non-zero
offset the value is instead the local rendering of the preceding UTC
midnight, which near local midnight names an adjacent day. -/
theorem c4_amended :
    dateAsNumber 0 ⟨2021, 3, 17, 14, 30, 0⟩ = "20210317" ∧
    dateAsNumber 0 ⟨2021, 3, 17, 23, 59, 59⟩ = "20210317" ∧
    dateAsNumber 0 ⟨2021, 3, 18, 0, 0, 1⟩ = "20210318" ∧
    ∀ dt : PyDateTime, dateAsNumber 0 dt = strftimeYmd 0 (timestampOf 0 dt) := by
  refine ⟨by decide, by decide, by decide, ?_⟩
  intro dt
  show formatYmd (civilFromDays
      ((timestampOf 0 dt - timestampOf 0 dt % 86400 + 0) / 86400)) =
    formatYmd (civilFromDays ((timestampOf 0 dt + 0) / 86400))
  have h : (timestampOf 0 dt - timestampOf 0 dt % 86400 + 0) / 86400 =
      (timestampOf 0 dt + 0) / 86400 := by
    omega
  rw [h]

/-! ### Claim C5 -/

theorem tappingLoop_missing (rest : List TapInteraction) :
    ∀ (prev : TapInteraction) (acc c : TapCounts),
      tappingLoop prev rest acc = .ok c → c.missing_data = acc.missing_data := by
  induction rest with
  | nil =>
    intro prev acc c h
    simp only [tappingLoop] at h
    cases h
    rfl
  | cons cur more ih =>
    intro prev acc c h
    obtain ⟨pd⟩ := prev
    obtain ⟨cd⟩ := cur
    cases pd with
    | none => simp only [tappingLoop] at h; exact absurd h (by simp)
    | some dPrev =>
      cases cd with
      | none => simp only [tappingLoop] at h; exact absurd h (by simp)
      | some dCur =>
        simp only [tappingLoop] at h
        split_ifs at h <;>
          first
          | (exact (ih _ _ _ h).trans rfl)
          | tauto

/-- C5: whenever the tapping normalizer completes normally, the
`Missing_data` column is 0 — the incrementing branch of line 365 is
unreachable because the two description comparisons are exhaustive. -/
theorem c5_missing_data_zero (tz : Int) (data : DataJson) (pr res : ParsedRecord)
    (h : _process_task_tapping tz data pr = .ok res) :
    dlookup res "Missing_data" = some (Val.int 0) := by
  unfold _process_task_tapping at h
  cases hts : _process_timestamps tz data pr with
  | error p => rw [hts] at h; exact absurd h (by simp)
  | ok pr2 =>
    rw [hts] at h
    cases hrt : data.results_tapping with
    | none => rw [hrt] at h; exact absurd h (by simp)
    | some interactions =>
      rw [hrt] at h
      cases hi : interactions with
      | nil =>
        rw [hi] at h
        dsimp only at h
        injection h with h2
        subst h2
        exact alookup_dinsert_self _ _ _
      | cons first rest =>
        rw [hi] at h
        dsimp only at h
        cases hc : tappingLoop first rest ⟨0, 0, 0, 0, 0⟩ with
        | error u => rw [hc] at h; exact absurd h (by simp)
        | ok c =>
          rw [hc] at h
          have hzero := tappingLoop_missing rest first ⟨0, 0, 0, 0, 0⟩ c hc
          dsimp only at h
          injection h with h2
          subst h2
          rw [hzero]
          exact alookup_dinsert_self _ _ _

/-- Witness for `c5_missing_data_zero` on a concrete three-interaction
record. -/
theorem c5_missing_data_zero_witness :
    dlookup (mresRecord (_process_task_tapping 0
      ⟨some ⟨"2021-03-17T14:30:00", "e", "ss", "se", "su"⟩, none,
        some [⟨some "tap with Right hand"⟩, ⟨some "tap with left hand"⟩,
          ⟨some "tap with left hand"⟩], none, [], none, none⟩ []))
      "Missing_data" = some (Val.int 0) :=
  c5_missing_data_zero 0
    ⟨some ⟨"2021-03-17T14:30:00", "e", "ss", "se", "su"⟩, none,
      some [⟨some "tap with Right hand"⟩, ⟨some "tap with left hand"⟩,
        ⟨some "tap with left hand"⟩], none, [], none, none⟩ []
    (mresRecord (_process_task_tapping 0
      ⟨some ⟨"2021-03-17T14:30:00", "e", "ss", "se", "su"⟩, none,
        some [⟨some "tap with Right hand"⟩, ⟨some "tap with left hand"⟩,
          ⟨some "tap with left hand"⟩], none, [], none, none⟩ []))
    (by rfl)

/-! ### Claim C2 -/

theorem stroopSlots_append (inters : List StroopInteraction) (a b : List Nat) :
    ∀ st, stroopSlots inters (a ++ b) st =
      match stroopSlots inters a st with
      | .error p => .error p
      | .ok st2 => stroopSlots inters b st2 := by
  induction a with
  | nil => intro st; rfl
  | cons i rest ih =>
    intro st
    show stroopSlots inters (i :: (rest ++ b)) st = _
    simp only [stroopSlots]
    cases stroopSlot inters st i with
    | error p => rfl
    | ok st2 => exact ih st2

theorem stroopSlot_in_range (inters : List StroopInteraction) (i : Nat)
    (it : StroopInteraction) (tv : Option String) (cv : Option Bool) (d : String)
    (hget : inters.get? i = some it) (htv : it.time = some tv)
    (hcv : it.correctness = some cv) (hd : it.description = some d)
    (pr : ParsedRecord) (m0 : MatcherState) :
    stroopSlot inters (pr, m0) i =
      .ok (slotCols tv cv (stroopMatch d) pr i, some (stroopMatch d)) := by
  unfold stroopSlot slotCols slotInteraction
  rw [hget]
  dsimp only
  rw [htv, hcv, hd]
  dsimp only
  cases stroopMatch d <;> rfl

theorem stroopSlot_out_of_range (inters : List StroopInteraction) (i : Nat)
    (hlen : inters.length ≤ i) (pr : ParsedRecord)
    (m : Option (String × String × String)) :
    stroopSlot inters (pr, some m) i = .ok (slotCols none none m pr i, some m) := by
  unfold stroopSlot slotCols slotInteraction
  rw [List.get?_eq_none.mpr hlen]
  dsimp only
  cases m <;> rfl

theorem stroopSlots_stale (inters : List StroopInteraction) :
    ∀ (slots : List Nat), (∀ i ∈ slots, inters.length ≤ i) →
      ∀ (pr : ParsedRecord) (m : Option (String × String × String)),
        stroopSlots inters slots (pr, some m) =
          .ok (slots.foldl (staleSlotCols m) pr, some m) := by
  intro slots
  induction slots with
  | nil => intro _ pr m; rfl
  | cons i rest ih =>
    intro h pr m
    have hi := h i (by simp)
    show stroopSlots inters (i :: rest) (pr, some m) = _
    simp only [stroopSlots, stroopSlot_out_of_range inters i hi pr m]
    rw [ih (fun j hj => h j (by simp [hj])) _ m]
    rfl

theorem stroopSlots_real (inters : List StroopInteraction)
    (hwf : ∀ it ∈ inters, WfInter it) :
    ∀ (slots : List Nat) (hne : slots ≠ []), (∀ i ∈ slots, i < inters.length) →
      ∀ (pr : ParsedRecord) (m0 : MatcherState),
        ∃ pr2 it d, inters.get? (slots.getLast hne) = some it ∧
          it.description = some d ∧
          stroopSlots inters slots (pr, m0) = .ok (pr2, some (stroopMatch d)) := by
  intro slots
  induction slots with
  | nil => intro hne; exact absurd rfl hne
  | cons i rest ih =>
    intro hne hlt pr m0
    have hi : i < inters.length := hlt i (by simp)
    obtain ⟨it, hget⟩ : ∃ it, inters.get? i = some it := ⟨_, List.get?_eq_get hi⟩
    have hmem : it ∈ inters := List.get?_mem hget
    obtain ⟨w1, w2, w3⟩ := hwf it hmem
    obtain ⟨tv, htv⟩ := Option.isSome_iff_exists.mp w1
    obtain ⟨cv, hcv⟩ := Option.isSome_iff_exists.mp w2
    obtain ⟨d, hd⟩ := Option.isSome_iff_exists.mp w3
    have hslot := stroopSlot_in_range inters i it tv cv d hget htv hcv hd pr m0
    cases rest with
    | nil =>
      refine ⟨slotCols tv cv (stroopMatch d) pr i, it, d, hget, hd, ?_⟩
      show stroopSlots inters [i] (pr, m0) = _
      simp only [stroopSlots, hslot]
    | cons j r =>
      obtain ⟨pr2, it2, d2, hget2, hd2, hrun⟩ :=
        ih (by simp) (fun k hk => hlt k (by simp [hk]))
          (slotCols tv cv (stroopMatch d) pr i) (some (stroopMatch d))
      refine ⟨pr2, it2, d2, ?_, hd2, ?_⟩
      · rw [List.getLast_cons]
        exact hget2
      · show stroopSlots inters (i :: j :: r) (pr, m0) = _
        simp only [stroopSlots, hslot]
        exact hrun

/-- C2 amended: the Stroop normalizer still iterates the fixed 30 slots,
and for every slot beyond the interaction count `Inter{i}_Date_Time` and
`Inter{i}_Correct` are null — but `Inter{i}_Color`/`Inter{i}_Spelling`
are *not* reliably null: the `matcher` variable survives the caught
`KeyError` on the missing description, so every beyond-count slot
repeats the captures of the last interaction's match attempt (null only
when that attempt failed). -/
theorem c2_stroop_beyond_count (tz : Int) (data : DataJson) (ts : TimestampsJson)
    (inters : List StroopInteraction) (pr : ParsedRecord)
    (hts : data.timestamps = some ts) (hstart : (isoParse ts.start).isSome = true)
    (hstroop : data.results_stroop = some inters) (hne : inters ≠ [])
    (hlen : inters.length ≤ 30) (hwf : ∀ it ∈ inters, WfInter it) :
    ∃ pr2 itLast d, inters.get? (inters.length - 1) = some itLast ∧
      itLast.description = some d ∧
      _process_task_stroop tz data pr =
        .ok ((List.range' inters.length (30 - inters.length)).foldl
          (staleSlotCols (stroopMatch d)) pr2) := by
  obtain ⟨dt, hdt⟩ := Option.isSome_iff_exists.mp hstart
  obtain ⟨P, hP⟩ : ∃ P, _process_timestamps tz data pr = .ok P := by
    unfold _process_timestamps
    rw [hts]
    dsimp only
    rw [hdt]
    exact ⟨_, rfl⟩
  have hsplit : List.range 30 =
      List.range inters.length ++ List.range' inters.length (30 - inters.length) := by
    rw [List.range_eq_range', List.range_eq_range']
    have happ := List.range'_append 0 inters.length (30 - inters.length) 1
    simp only [Nat.zero_add, Nat.one_mul] at happ
    rw [happ]
    congr 1
    omega
  have hne_r : List.range inters.length ≠ [] := by
    simp only [ne_eq, List.range_eq_nil]
    intro h
    exact hne (List.length_eq_zero.mp h)
  obtain ⟨pr2, itL, d, hgetL, hdL, hrun⟩ :=
    stroopSlots_real inters hwf (List.range inters.length) hne_r
      (fun i hi => List.mem_range.mp hi) P none
  have hlast : (List.range inters.length).getLast hne_r = inters.length - 1 := by
    rw [List.getLast_eq_getElem]
    simp
  rw [hlast] at hgetL
  refine ⟨pr2, itL, d, hgetL, hdL, ?_⟩
  unfold _process_task_stroop
  rw [hP]
  dsimp only
  rw [hstroop]
  dsimp only
  rw [hsplit, stroopSlots_append, hrun]
  dsimp only
  rw [stroopSlots_stale inters _ (fun i hi => (List.mem_range'_1.mp hi).1) pr2
    (stroopMatch d)]

/-- C2 counterexample: a Stroop record with a single interaction whose
description matches the pattern.  Slot 2 lies beyond the interaction
count, and its `Inter2_Date_Time` is null as claimed — but
`Inter2_Color`/`Inter2_Spelling` hold the stale captures "GREEN"/"Red"
of slot 1's match instead of the nulls the claim requires. -/
theorem c2_counterexample :
    (dlookup (mresRecord (_process_task_stroop 0
      ⟨some ⟨"2021-03-17T14:30:00", "e", "ss", "se", "su"⟩,
        some [⟨some (some "t1"), some (some true),
          some "Say the word GREEN written in Red ink 42"⟩],
        none, none, [], none, none⟩ [])) "Inter2_Date_Time",
     dlookup (mresRecord (_process_task_stroop 0
      ⟨some ⟨"2021-03-17T14:30:00", "e", "ss", "se", "su"⟩,
        some [⟨some (some "t1"), some (some true),
          some "Say the word GREEN written in Red ink 42"⟩],
        none, none, [], none, none⟩ [])) "Inter2_Color",
     dlookup (mresRecord (_process_task_stroop 0
      ⟨some ⟨"2021-03-17T14:30:00", "e", "ss", "se", "su"⟩,
        some [⟨some (some "t1"), some (some true),
          some "Say the word GREEN written in Red ink 42"⟩],
        none, none, [], none, none⟩ [])) "Inter2_Spelling") =
    (some Val.null, some (Val.str "GREEN"), some (Val.str "Red")) := by
  decide

/-- Witness for `c2_stroop_beyond_count` on the single-interaction record
of the counterexample. -/
theorem c2_stroop_beyond_count_witness :
    ∃ pr2 itLast d,
      ([⟨some (some "t1"), some (some true),
          some "Say the word GREEN written in Red ink 42"⟩] :
        List StroopInteraction).get? 0 = some itLast ∧
      itLast.description = some d ∧
      _process_task_stroop 0
        ⟨some ⟨"2021-03-17T14:30:00", "e", "ss", "se", "su"⟩,
          some [⟨some (some "t1"), some (some true),
            some "Say the word GREEN written in Red ink 42"⟩],
          none, none, [], none, none⟩ [] =
        .ok ((List.range' 1 29).foldl (staleSlotCols (stroopMatch d)) pr2) :=
  c2_stroop_beyond_count 0
    ⟨some ⟨"2021-03-17T14:30:00", "e", "ss", "se", "su"⟩,
      some [⟨some (some "t1"), some (some true),
        some "Say the word GREEN written in Red ink 42"⟩],
      none, none, [], none, none⟩
    ⟨"2021-03-17T14:30:00", "e", "ss", "se", "su"⟩
    [⟨some (some "t1"), some (some true),
      some "Say the word GREEN written in Red ink 42"⟩] []
    rfl (by decide) rfl (by decide) (by decide) (by decide)

/-! ### Claim C6 -/

theorem hours_formula (td : Int) (h : 0 ≤ td) :
    (ratTrunc ((td : Rat) / 3600) : Rat) + ((td % 3600 : Int) : Rat) / 3600 =
      (td : Rat) / 3600 := by
  have hq := Int.ediv_add_emod td 3600
  have hr0 : 0 ≤ td % 3600 := Int.emod_nonneg td (by norm_num)
  have hrlt : td % 3600 < 3600 := Int.emod_lt_of_pos td (by norm_num)
  have hq0 : 0 ≤ td / 3600 := Int.ediv_nonneg h (by norm_num)
  have hcast : (td : Rat) = 3600 * ((td / 3600 : Int) : Rat) + ((td % 3600 : Int) : Rat) := by
    exact_mod_cast hq.symm
  have hfrac0 : (0 : Rat) ≤ ((td % 3600 : Int) : Rat) / 3600 := by positivity
  have hfrac1 : ((td % 3600 : Int) : Rat) / 3600 < 1 := by
    rw [div_lt_one (by norm_num : (0 : Rat) < 3600)]
    exact_mod_cast hrlt
  have hsplit : (td : Rat) / 3600 =
      ((td / 3600 : Int) : Rat) + ((td % 3600 : Int) : Rat) / 3600 := by
    rw [hcast]
    field_simp
    ring
  have htrunc : ratTrunc ((td : Rat) / 3600) = td / 3600 := by
    unfold ratTrunc
    rw [if_pos (by positivity : (0 : Rat) ≤ (td : Rat) / 3600)]
    rw [hsplit, Int.floor_int_add]
    have : ⌊((td % 3600 : Int) : Rat) / 3600⌋ = 0 := by
      rw [Int.floor_eq_zero_iff, Set.mem_Ico]
      exact ⟨hfrac0, hfrac1⟩
    rw [this, add_zero]
  rw [htrunc, hsplit]

theorem healthFold_two_steps (tz : Int) (f1 t1 f2 t2 : String)
    (dtF1 dtT1 dtF2 dtT2 : PyDateTime)
    (hF1 : isoParse f1 = some dtF1) (hT1 : isoParse t1 = some dtT1)
    (hF2 : isoParse f2 = some dtF2) (hT2 : isoParse t2 = some dtT2)
    (hsame : formatYmd (dtF2.year, dtF2.month, dtF2.day) =
      formatYmd (dtF1.year, dtF1.month, dtF1.day)) :
    healthFold tz [⟨"HealthDataType.STEPS", f1, t1, 100⟩,
        ⟨"HealthDataType.STEPS", f2, t2, 250⟩] [] =
      .ok [("HealthDataType.STEPS",
        ⟨[(formatYmd (dtF1.year, dtF1.month, dtF1.day), 350)],
         min (timestampOf tz dtF1) (timestampOf tz dtF2),
         max (timestampOf tz dtT1) (timestampOf tz dtT2)⟩)] := by
  have hmin : (if timestampOf tz dtF2 < timestampOf tz dtF1 then timestampOf tz dtF2
      else timestampOf tz dtF1) = min (timestampOf tz dtF1) (timestampOf tz dtF2) := by
    split <;> omega
  have hmax : (if timestampOf tz dtT2 > timestampOf tz dtT1 then timestampOf tz dtT2
      else timestampOf tz dtT1) = max (timestampOf tz dtT1) (timestampOf tz dtT2) := by
    split <;> omega
  have hsum : (100 : Rat) + 250 = 350 := by norm_num
  simp [healthFold, hF1, hT1, hF2, hT2, hsame, alookup, aset, hmin, hmax, hsum]

theorem healthEmit_steps (tz : Int) (d1 : String) (tmin tmax : Int) (P : ParsedRecord)
    (hord : tmin ≤ tmax) :
    healthEmit tz [("HealthDataType.STEPS", ⟨[(d1, 350)], tmin, tmax⟩)] P
      "HealthDataType.STEPS" =
    dinsert (dinsert (dinsert (dinsert P
      "Total_Dates_STEPS" (.str (d1 ++ "-350.0_")))
      "STEPS_Session_Start_Time" (.str (formatIsoFromTimestamp tz tmin)))
      "STEPS_Session_End_Time" (.str (formatIsoFromTimestamp tz tmax)))
      "STEPS_Hours_Range" (.num (round2 (((tmax - tmin : Int) : Rat) / 3600))) := by
  have hhours := hours_formula (tmax - tmin) (by omega)
  have hname : colNameOf "HealthDataType.STEPS" = "STEPS" := by decide
  have hflo : floatRepr 350 = "350.0" := by decide
  have henc : (d1 ++ "-" ++ "350.0" ++ "_") = d1 ++ "-350.0_" := by
    rw [String.append_assoc, String.append_assoc]
    rw [show ("-" : String) ++ ("350.0" ++ "_") = "-350.0_" from by decide]
  have hhours2 : (ratTrunc (((tmax : Rat) - (tmin : Rat)) / 3600) : Rat) +
      (((tmax - tmin) % 3600 : Int) : Rat) / 3600 =
      ((tmax : Rat) - (tmin : Rat)) / 3600 := by
    rw [Int.cast_sub] at hhours
    exact hhours
  simp [healthEmit, alookup, hname, hflo, henc, hhours2]

theorem healthEmit_energy_absent (tz : Int) (d1 : String) (tmin tmax : Int)
    (P : ParsedRecord) :
    healthEmit tz [("HealthDataType.STEPS", ⟨[(d1, 350)], tmin, tmax⟩)] P
      "HealthDataType.ACTIVE_ENERGY_BURNED" =
    dinsert (dinsert (dinsert (dinsert P
      "Total_Dates_ACTIVE_ENERGY_BURNED" Val.null)
      "ACTIVE_ENERGY_BURNED_Session_Start_Time" Val.null)
      "ACTIVE_ENERGY_BURNED_Session_End_Time" Val.null)
      "ACTIVE_ENERGY_BURNED_Hours_Range" Val.null := by
  have hname : colNameOf "HealthDataType.ACTIVE_ENERGY_BURNED" =
      "ACTIVE_ENERGY_BURNED" := by decide
  simp [healthEmit, alookup, hname]

/-- C6: for a health record with exactly two step-count blocks whose
`dateFrom` dates agree, values 100 and 250, `Total_Dates_STEPS` encodes
the combined sum 350 for the single date bucket, and `STEPS_Hours_Range`
is the elapsed time in hours between the earliest `dateFrom` and the
latest `dateTo` (whole hours plus fractional remainder, rounded to two
decimals), regardless of the blocks' chronological order. -/
theorem c6_health_sum_and_range (tz : Int) (data : DataJson) (ts : TimestampsJson)
    (f1 t1 f2 t2 : String) (dtF1 dtT1 dtF2 dtT2 : PyDateTime) (pr : ParsedRecord)
    (hts : data.timestamps = some ts) (hstart : (isoParse ts.start).isSome = true)
    (hres : data.results_health = some
      [⟨"HealthDataType.STEPS", f1, t1, 100⟩, ⟨"HealthDataType.STEPS", f2, t2, 250⟩])
    (hF1 : isoParse f1 = some dtF1) (hT1 : isoParse t1 = some dtT1)
    (hF2 : isoParse f2 = some dtF2) (hT2 : isoParse t2 = some dtT2)
    (hsame : formatYmd (dtF2.year, dtF2.month, dtF2.day) =
      formatYmd (dtF1.year, dtF1.month, dtF1.day))
    (hord : min (timestampOf tz dtF1) (timestampOf tz dtF2) ≤
      max (timestampOf tz dtT1) (timestampOf tz dtT2)) :
    ∃ res, _process_healthdata tz data pr = .ok res ∧
      dlookup res "Total_Dates_STEPS" = some (Val.str
        (formatYmd (dtF1.year, dtF1.month, dtF1.day) ++ "-350.0_")) ∧
      dlookup res "STEPS_Hours_Range" = some (Val.num (round2
        ((((max (timestampOf tz dtT1) (timestampOf tz dtT2) : Int) : Rat) -
          ((min (timestampOf tz dtF1) (timestampOf tz dtF2) : Int) : Rat)) / 3600))) := by
  obtain ⟨dt, hdt⟩ := Option.isSome_iff_exists.mp hstart
  obtain ⟨P, hP⟩ : ∃ P, _process_timestamps tz data pr = .ok P := by
    unfold _process_timestamps
    rw [hts]
    dsimp only
    rw [hdt]
    exact ⟨_, rfl⟩
  refine ⟨?_, ?_, ?_, ?_⟩
  · exact healthEmit tz
      [("HealthDataType.STEPS",
        ⟨[(formatYmd (dtF1.year, dtF1.month, dtF1.day), 350)],
         min (timestampOf tz dtF1) (timestampOf tz dtF2),
         max (timestampOf tz dtT1) (timestampOf tz dtT2)⟩)]
      (healthEmit tz
        [("HealthDataType.STEPS",
          ⟨[(formatYmd (dtF1.year, dtF1.month, dtF1.day), 350)],
           min (timestampOf tz dtF1) (timestampOf tz dtF2),
           max (timestampOf tz dtT1) (timestampOf tz dtT2)⟩)]
        P "HealthDataType.STEPS") "HealthDataType.ACTIVE_ENERGY_BURNED"
  · unfold _process_healthdata
    rw [hP]
    dsimp only
    rw [hres]
    dsimp only
    rw [healthFold_two_steps tz f1 t1 f2 t2 dtF1 dtT1 dtF2 dtT2 hF1 hT1 hF2 hT2 hsame]
    dsimp only [HEALTH_KEYS, List.foldl]
  · rw [healthEmit_steps tz _ _ _ P hord, healthEmit_energy_absent]
    simp only [dlookup]
    rw [alookup_dinsert_other _ _ _ _ (by decide : ("Total_Dates_STEPS" : String) ≠ "ACTIVE_ENERGY_BURNED_Hours_Range"),
      alookup_dinsert_other _ _ _ _ (by decide : ("Total_Dates_STEPS" : String) ≠ "ACTIVE_ENERGY_BURNED_Session_End_Time"),
      alookup_dinsert_other _ _ _ _ (by decide : ("Total_Dates_STEPS" : String) ≠ "ACTIVE_ENERGY_BURNED_Session_Start_Time"),
      alookup_dinsert_other _ _ _ _ (by decide : ("Total_Dates_STEPS" : String) ≠ "Total_Dates_ACTIVE_ENERGY_BURNED"),
      alookup_dinsert_other _ _ _ _ (by decide : ("Total_Dates_STEPS" : String) ≠ "STEPS_Hours_Range"),
      alookup_dinsert_other _ _ _ _ (by decide : ("Total_Dates_STEPS" : String) ≠ "STEPS_Session_End_Time"),
      alookup_dinsert_other _ _ _ _ (by decide : ("Total_Dates_STEPS" : String) ≠ "STEPS_Session_Start_Time"),
      alookup_dinsert_self]
  · rw [healthEmit_steps tz _ _ _ P hord, healthEmit_energy_absent]
    simp only [dlookup]
    rw [alookup_dinsert_other _ _ _ _ (by decide : ("STEPS_Hours_Range" : String) ≠ "ACTIVE_ENERGY_BURNED_Hours_Range"),
      alookup_dinsert_other _ _ _ _ (by decide : ("STEPS_Hours_Range" : String) ≠ "ACTIVE_ENERGY_BURNED_Session_End_Time"),
      alookup_dinsert_other _ _ _ _ (by decide : ("STEPS_Hours_Range" : String) ≠ "ACTIVE_ENERGY_BURNED_Session_Start_Time"),
      alookup_dinsert_other _ _ _ _ (by decide : ("STEPS_Hours_Range" : String) ≠ "Total_Dates_ACTIVE_ENERGY_BURNED"),
      alookup_dinsert_self]
    push_cast
    rfl

/-- Witness for `c6_health_sum_and_range`: blocks 10:00-11:30 (value 100)
and 08:00-09:00 (value 250) on 2021-03-17, deliberately out of
chronological order. -/
theorem c6_health_sum_and_range_witness :
    ∃ res, _process_healthdata 0
      ⟨some ⟨"2021-03-17T14:30:00", "e", "ss", "se", "su"⟩, none, none,
        some [⟨"HealthDataType.STEPS", "2021-03-17T10:00:00", "2021-03-17T11:30:00", 100⟩,
          ⟨"HealthDataType.STEPS", "2021-03-17T08:00:00", "2021-03-17T09:00:00", 250⟩],
        [], none, none⟩ [] = .ok res ∧
      dlookup res "Total_Dates_STEPS" = some (Val.str
        (formatYmd ((⟨2021, 3, 17, 10, 0, 0⟩ : PyDateTime).year,
          (⟨2021, 3, 17, 10, 0, 0⟩ : PyDateTime).month,
          (⟨2021, 3, 17, 10, 0, 0⟩ : PyDateTime).day) ++ "-350.0_")) ∧
      dlookup res "STEPS_Hours_Range" = some (Val.num (round2
        ((((max (timestampOf 0 ⟨2021, 3, 17, 11, 30, 0⟩)
              (timestampOf 0 ⟨2021, 3, 17, 9, 0, 0⟩) : Int) : Rat) -
          ((min (timestampOf 0 ⟨2021, 3, 17, 10, 0, 0⟩)
              (timestampOf 0 ⟨2021, 3, 17, 8, 0, 0⟩) : Int) : Rat)) / 3600))) :=
  c6_health_sum_and_range 0
    ⟨some ⟨"2021-03-17T14:30:00", "e", "ss", "se", "su"⟩, none, none,
      some [⟨"HealthDataType.STEPS", "2021-03-17T10:00:00", "2021-03-17T11:30:00", 100⟩,
        ⟨"HealthDataType.STEPS", "2021-03-17T08:00:00", "2021-03-17T09:00:00", 250⟩],
      [], none, none⟩
    ⟨"2021-03-17T14:30:00", "e", "ss", "se", "su"⟩
    "2021-03-17T10:00:00" "2021-03-17T11:30:00"
    "2021-03-17T08:00:00" "2021-03-17T09:00:00"
    ⟨2021, 3, 17, 10, 0, 0⟩ ⟨2021, 3, 17, 11, 30, 0⟩
    ⟨2021, 3, 17, 8, 0, 0⟩ ⟨2021, 3, 17, 9, 0, 0⟩ []
    rfl (by decide) rfl (by decide) (by decide) (by decide) (by decide)
    (by decide) (by decide)

/-! ### Preservation of the loop's own columns through the normalizers -/

theorem interCol_ne_reserved (i : Nat) (tail : String) (k : String)
    (hk : ReservedKey k) : k ≠ interCol i tail := by
  have hhead : (interCol i tail).data.head? = some 'I' := by
    unfold interCol
    rw [String.data_append, String.data_append]
    cases h : ("Inter".data ++ (Nat.repr (i + 1)).data) with
    | nil => simp [show ("Inter".data) = ['I', 'n', 't', 'e', 'r'] from by decide] at h
    | cons c rest =>
      have : c = 'I' := by
        rw [show ("Inter".data) = ['I', 'n', 't', 'e', 'r'] from by decide] at h
        simp at h
        exact h.1.symm
      subst this
      simp [h]
  intro heq
  rcases hk with rfl | rfl | rfl | rfl <;>
    (rw [← heq] at hhead; exact absurd hhead (by decide))

theorem pres_timestamps (tz : Int) (data : DataJson) (pr : ParsedRecord)
    (k : String) (hk : ReservedKey k) :
    dlookup (mresRecord (_process_timestamps tz data pr)) k = dlookup pr k := by
  unfold _process_timestamps
  cases hts : data.timestamps with
  | none => rfl
  | some ts =>
    cases hdt : isoParse ts.start with
    | none =>
      rcases hk with rfl | rfl | rfl | rfl <;>
        simp [dlookup, mresRecord, hdt, alookup_dinsert_other]
    | some dt =>
      rcases hk with rfl | rfl | rfl | rfl <;>
        simp [dlookup, mresRecord, hdt, alookup_dinsert_other]

theorem pres_slotCols (tv : Option String) (cv : Option Bool)
    (m : Option (String × String × String)) (pr : ParsedRecord) (i : Nat)
    (k : String) (hk : ReservedKey k) :
    dlookup (slotCols tv cv m pr i) k = dlookup pr k := by
  have h1 := interCol_ne_reserved i "_Date_Time" k hk
  have h2 := interCol_ne_reserved i "_Correct" k hk
  have h3 := interCol_ne_reserved i "_Color" k hk
  have h4 := interCol_ne_reserved i "_Spelling" k hk
  unfold slotCols dlookup
  dsimp only
  cases m with
  | some caps =>
    rw [alookup_dinsert_other _ _ _ _ h4, alookup_dinsert_other _ _ _ _ h3,
      alookup_dinsert_other _ _ _ _ h2, alookup_dinsert_other _ _ _ _ h1]
  | none =>
    rw [alookup_dinsert_other _ _ _ _ h4, alookup_dinsert_other _ _ _ _ h3,
      alookup_dinsert_other _ _ _ _ h2, alookup_dinsert_other _ _ _ _ h1]

theorem pres_stroopSlot (inters : List StroopInteraction)
    (st : ParsedRecord × MatcherState) (i : Nat) (k : String) (hk : ReservedKey k) :
    (match stroopSlot inters st i with
     | .ok st2 => dlookup st2.1 k
     | .error p => dlookup p k) = dlookup st.1 k := by
  have h1 := interCol_ne_reserved i "_Date_Time" k hk
  have h2 := interCol_ne_reserved i "_Correct" k hk
  have h3 := interCol_ne_reserved i "_Color" k hk
  have h4 := interCol_ne_reserved i "_Spelling" k hk
  unfold stroopSlot
  cases hsi : slotInteraction inters i with
  | mk tf cf df =>
    cases tf with
    | none => rfl
    | some tv =>
      cases cf with
      | none =>
        dsimp only
        simp [dlookup, alookup_dinsert_other _ _ _ _ h1]
      | some cv =>
        cases hdm : (match df with
            | some d => some (stroopMatch d)
            | none => st.2) with
        | none =>
          dsimp only
          rw [hdm]
          simp [dlookup, alookup_dinsert_other _ _ _ _ h1,
            alookup_dinsert_other _ _ _ _ h2]
        | some mv =>
          dsimp only
          rw [hdm]
          cases mv with
          | none =>
            simp [dlookup, alookup_dinsert_other _ _ _ _ h1,
              alookup_dinsert_other _ _ _ _ h2, alookup_dinsert_other _ _ _ _ h3,
              alookup_dinsert_other _ _ _ _ h4]
          | some caps =>
            simp [dlookup, alookup_dinsert_other _ _ _ _ h1,
              alookup_dinsert_other _ _ _ _ h2, alookup_dinsert_other _ _ _ _ h3,
              alookup_dinsert_other _ _ _ _ h4]

theorem pres_stroopSlots (inters : List StroopInteraction) (slots : List Nat)
    (k : String) (hk : ReservedKey k) :
    ∀ st, (match stroopSlots inters slots st with
           | .ok st2 => dlookup st2.1 k
           | .error p => dlookup p k) = dlookup st.1 k := by
  induction slots with
  | nil => intro st; rfl
  | cons i rest ih =>
    intro st
    have hslot := pres_stroopSlot inters st i k hk
    show (match stroopSlots inters (i :: rest) st with
          | .ok st2 => dlookup st2.1 k
          | .error p => dlookup p k) = dlookup st.1 k
    simp only [stroopSlots]
    cases hs : stroopSlot inters st i with
    | error p =>
      rw [hs] at hslot
      exact hslot
    | ok st2 =>
      rw [hs] at hslot
      rw [← hslot]
      exact ih st2

theorem pres_stroop (tz : Int) (data : DataJson) (pr : ParsedRecord) (k : String)
    (hk : ReservedKey k) :
    dlookup (mresRecord (_process_task_stroop tz data pr)) k = dlookup pr k := by
  have hts := pres_timestamps tz data pr k hk
  unfold _process_task_stroop
  cases h1 : _process_timestamps tz data pr with
  | error p =>
    rw [h1] at hts
    simpa [mresRecord] using hts
  | ok P =>
    rw [h1] at hts
    simp only [mresRecord] at hts
    cases h2 : data.results_stroop with
    | none => simpa [mresRecord] using hts
    | some inters =>
      have hsl := pres_stroopSlots inters (List.range 30) k hk (P, none)
      dsimp only
      cases h3 : stroopSlots inters (List.range 30) (P, none) with
      | error p2 =>
        rw [h3] at hsl
        dsimp only at hsl
        dsimp only [mresRecord]
        exact hsl.trans hts
      | ok st2 =>
        rw [h3] at hsl
        dsimp only at hsl
        dsimp only [mresRecord]
        exact hsl.trans hts

theorem pres_tapping (tz : Int) (data : DataJson) (pr : ParsedRecord) (k : String)
    (hk : ReservedKey k) :
    dlookup (mresRecord (_process_task_tapping tz data pr)) k = dlookup pr k := by
  have hts := pres_timestamps tz data pr k hk
  unfold _process_task_tapping
  cases h1 : _process_timestamps tz data pr with
  | error p =>
    rw [h1] at hts
    simpa [mresRecord] using hts
  | ok P =>
    rw [h1] at hts
    simp only [mresRecord] at hts
    cases h2 : data.results_tapping with
    | none => simpa [mresRecord] using hts
    | some inters =>
      cases inters with
      | nil =>
        dsimp only
        simp only [dlookup] at hts ⊢
        rcases hk with rfl | rfl | rfl | rfl <;>
          (simp [mresRecord, alookup_dinsert_other]; exact hts)
      | cons first rest =>
        dsimp only
        cases h3 : tappingLoop first rest ⟨0, 0, 0, 0, 0⟩ with
        | error u => simpa [mresRecord] using hts
        | ok c =>
          simp only [dlookup] at hts ⊢
          rcases hk with rfl | rfl | rfl | rfl <;>
            (simp [mresRecord, alookup_dinsert_other]; exact hts)

theorem pres_healthEmit (tz : Int) (acc : List (String × AccEntry))
    (pr : ParsedRecord) (key k : String)
    (h1 : k ≠ "Total_Dates_" ++ colNameOf key)
    (h2 : k ≠ colNameOf key ++ "_Session_Start_Time")
    (h3 : k ≠ colNameOf key ++ "_Session_End_Time")
    (h4 : k ≠ colNameOf key ++ "_Hours_Range") :
    dlookup (healthEmit tz acc pr key) k = dlookup pr k := by
  unfold healthEmit dlookup
  dsimp only
  rw [alookup_dinsert_other _ _ _ _ h4, alookup_dinsert_other _ _ _ _ h3,
    alookup_dinsert_other _ _ _ _ h2, alookup_dinsert_other _ _ _ _ h1]

theorem pres_health (tz : Int) (data : DataJson) (pr : ParsedRecord) (k : String)
    (hk : ReservedKey k) :
    dlookup (mresRecord (_process_healthdata tz data pr)) k = dlookup pr k := by
  have hts := pres_timestamps tz data pr k hk
  unfold _process_healthdata
  cases h1 : _process_timestamps tz data pr with
  | error p =>
    rw [h1] at hts
    simpa [mresRecord] using hts
  | ok P =>
    rw [h1] at hts
    simp only [mresRecord] at hts
    cases h2 : data.results_health with
    | none => simpa [mresRecord] using hts
    | some results =>
      dsimp only
      cases h3 : healthFold tz results [] with
      | error u => simpa [mresRecord] using hts
      | ok acc =>
        simp only [mresRecord, HEALTH_KEYS, List.foldl]
        rcases hk with rfl | rfl | rfl | rfl <;>
          rw [pres_healthEmit tz acc _ _ _ (by decide) (by decide) (by decide) (by decide),
            pres_healthEmit tz acc _ _ _ (by decide) (by decide) (by decide) (by decide)] <;>
          exact hts

theorem reservedOk_ne (kq k : String) (h : reservedOk kq = true)
    (hk : ReservedKey k) : k ≠ kq := by
  rcases hk with rfl | rfl | rfl | rfl <;>
    (intro heq; rw [← heq] at h; exact absurd h (by decide))

theorem all_keys_aset {α : Type} (l : List (String × α)) (key : String) (v : α)
    (h : l.all (fun p => reservedOk p.1) = true) (hkey : reservedOk key = true) :
    (aset l key v).all (fun p => reservedOk p.1) = true := by
  induction l with
  | nil => simp [aset]
  | cons p rest ih =>
    simp only [List.all_cons, Bool.and_eq_true] at h
    by_cases hp : p.1 = key
    · simp [aset, hp, hkey, h.2]
    · simp only [aset, if_neg hp, List.all_cons, Bool.and_eq_true]
      exact ⟨h.1, ih h.2⟩

theorem all_keys_dinsert {α : Type} (l : List (String × α)) (key : String) (v : α)
    (h : l.all (fun p => reservedOk p.1) = true) (hkey : reservedOk key = true) :
    (dinsert l key v).all (fun p => reservedOk p.1) = true := by
  unfold dinsert
  by_cases hs : (alookup l key).isSome
  · simp [hs, all_keys_aset l key v h hkey]
  · simp [hs, List.all_append, h, hkey]

theorem pres_moodLoop (k : String) (hk : ReservedKey k) :
    ∀ (qs : List (String × MoodQuestion)) (pr : ParsedRecord),
      qs.all (fun p => reservedOk p.1) = true →
      dlookup (mresRecord (moodLoop pr qs)) k = dlookup pr k := by
  intro qs
  induction qs with
  | nil => intro pr _; rfl
  | cons p rest ih =>
    intro pr hq
    simp only [List.all_cons, Bool.and_eq_true] at hq
    obtain ⟨kq, q⟩ := p
    cases q with
    | error u => rfl
    | ok s =>
      show dlookup (mresRecord (moodLoop (dinsert pr kq (Val.str s)) rest)) k = _
      rw [ih (dinsert pr kq (Val.str s)) hq.2]
      simp only [dlookup]
      exact alookup_dinsert_other pr kq k (Val.str s) (reservedOk_ne kq k hq.1 hk)

theorem pres_intakeGroupLoop (k : String) (hk : ReservedKey k) :
    ∀ (qs : List (String × IntakeQuestion)) (pr : ParsedRecord),
      qs.all (fun p => reservedOk p.1) = true →
      (match intakeGroupLoop pr qs with
       | .ok r => dlookup r k
       | .keyErr r => dlookup r k
       | .idxErr r => dlookup r k) = dlookup pr k := by
  intro qs
  induction qs with
  | nil => intro pr _; rfl
  | cons p rest ih =>
    intro pr hq
    simp only [List.all_cons, Bool.and_eq_true] at hq
    obtain ⟨kq, q⟩ := p
    cases q with
    | keyErr => rfl
    | idxErr => rfl
    | text s =>
      show (match intakeGroupLoop (dinsert pr kq (Val.str s)) rest with
            | .ok r => dlookup r k
            | .keyErr r => dlookup r k
            | .idxErr r => dlookup r k) = _
      rw [ih (dinsert pr kq (Val.str s)) hq.2]
      simp only [dlookup]
      exact alookup_dinsert_other pr kq k (Val.str s) (reservedOk_ne kq k hq.1 hk)

theorem pres_intakeGroups (k : String) (hk : ReservedKey k)
    (results : List (String × IntakeGroup))
    (hres : results.all (fun g => match g.2 with
      | .ok qs => qs.all (fun p => reservedOk p.1)
      | .keyErr => true) = true) :
    ∀ (gs : List String), (∀ g ∈ gs, reservedOk g = true) →
      ∀ pr, dlookup (mresRecord (intakeGroups results pr gs)) k = dlookup pr k := by
  intro gs
  induction gs with
  | nil => intro _ pr; rfl
  | cons g rest ih =>
    intro hgs pr
    have hgok : reservedOk g = true := hgs g (by simp)
    have hrest : ∀ g2 ∈ rest, reservedOk g2 = true := fun g2 h2 => hgs g2 (by simp [h2])
    have hne := reservedOk_ne g k hgok hk
    show dlookup (mresRecord (match alookup results g with
      | none => intakeGroups results (dinsert pr g .null) rest
      | some .keyErr => intakeGroups results (dinsert pr g .null) rest
      | some (.ok qs) =>
        match intakeGroupLoop pr qs with
        | .ok pr2 => intakeGroups results pr2 rest
        | .keyErr pr2 => intakeGroups results (dinsert pr2 g .null) rest
        | .idxErr pr2 => .error pr2)) k = dlookup pr k
    cases hg : alookup results g with
    | none =>
      rw [ih hrest (dinsert pr g .null)]
      simp only [dlookup]
      exact alookup_dinsert_other pr g k Val.null hne
    | some grp =>
      cases grp with
      | keyErr =>
        rw [ih hrest (dinsert pr g .null)]
        simp only [dlookup]
        exact alookup_dinsert_other pr g k Val.null hne
      | ok qs =>
        dsimp only
        have hqs : qs.all (fun p => reservedOk p.1) = true := by
          have hmem : (g, IntakeGroup.ok qs) ∈ results := by
            clear ih hres
            induction results with
            | nil => simp [alookup] at hg
            | cons r rrest ihr =>
              obtain ⟨r1, r2⟩ := r
              by_cases hr : r1 = g
              · subst hr
                simp [alookup] at hg
                rw [hg]
                exact List.mem_cons_self _ _
              · simp [alookup, hr] at hg
                exact List.mem_cons_of_mem _ (ihr hg)
          have := List.all_eq_true.mp hres _ hmem
          simpa using this
        have hloop := pres_intakeGroupLoop k hk qs pr hqs
        cases hl : intakeGroupLoop pr qs with
        | ok pr2 =>
          rw [hl] at hloop
          dsimp only at hloop
          dsimp only
          rw [ih hrest pr2]
          exact hloop
        | keyErr pr2 =>
          rw [hl] at hloop
          dsimp only at hloop
          dsimp only
          rw [ih hrest (dinsert pr2 g .null)]
          simp only [dlookup]
          rw [alookup_dinsert_other pr2 g k Val.null hne]
          exact hloop
        | idxErr pr2 =>
          rw [hl] at hloop
          dsimp only at hloop
          dsimp only [mresRecord]
          exact hloop

theorem pres_intake (tz : Int) (data : DataJson) (pr : ParsedRecord) (k : String)
    (hk : ReservedKey k)
    (hres : data.results_intake.all (fun g => match g.2 with
      | .ok qs => qs.all (fun p => reservedOk p.1)
      | .keyErr => true) = true) :
    dlookup (mresRecord (_process_intake tz data pr)) k = dlookup pr k := by
  have hts := pres_timestamps tz data pr k hk
  unfold _process_intake
  cases h1 : _process_timestamps tz data pr with
  | error p =>
    rw [h1] at hts
    simpa [mresRecord] using hts
  | ok P =>
    rw [h1] at hts
    simp only [mresRecord] at hts
    dsimp only
    rw [pres_intakeGroups k hk data.results_intake hres baseline_question_groups
      (by decide) P]
    exact hts

theorem pres_mood (tz : Int) (data : DataJson) (pr : ParsedRecord) (a k : String)
    (hk : ReservedKey k)
    (hq : (match data.results_questions with
      | some qs => qs.all (fun p => reservedOk p.1)
      | none => true) = true) :
    dlookup (mresRecord (_process_mood_questionnaires tz data pr a)) k =
      dlookup pr k := by
  have hts := pres_timestamps tz data pr k hk
  unfold _process_mood_questionnaires
  cases h1 : _process_timestamps tz data pr with
  | error p =>
    rw [h1] at hts
    simpa [mresRecord] using hts
  | ok P =>
    rw [h1] at hts
    simp only [mresRecord] at hts
    dsimp only
    have hall : (match data.results_questions with
        | some qs => qs
        | none => []).all (fun p => reservedOk p.1) = true := by
      cases hq2 : data.results_questions with
      | some qs => rw [hq2] at hq; exact hq
      | none => simp
    cases h10 : data.results_question10 with
    | none =>
      rw [pres_moodLoop k hk _ P hall]
      exact hts
    | some q =>
      rw [pres_moodLoop k hk _ P (all_keys_dinsert _ "question10" q hall (by decide))]
      exact hts

theorem pres_dispatch (tz : Int) (dj : DataJson) (rtype : String)
    (mvar : Option MetaJson) (pr : ParsedRecord) (k : String)
    (hk : ReservedKey k) (hgood : goodData dj = true) :
    dlookup (mresRecord (dispatchData tz dj rtype mvar pr)) k = dlookup pr k := by
  unfold goodData at hgood
  simp only [Bool.and_eq_true] at hgood
  obtain ⟨hq, hi⟩ := hgood
  unfold dispatchData
  split
  · cases mvar with
    | none => rfl
    | some mj =>
      obtain ⟨act, app⟩ := mj
      cases act with
      | shortName a =>
        dsimp only
        split
        · exact pres_intake tz dj pr k hk hi
        · split
          · rfl
          · exact pres_mood tz dj pr a k hk hq
      | absent => rfl
      | null => rfl
      | missingShortName => rfl
  · split
    · cases mvar with
      | none => rfl
      | some mj =>
        obtain ⟨act, app⟩ := mj
        cases act with
        | shortName a =>
          dsimp only
          split
          · exact pres_stroop tz dj pr k hk
          · split
            · exact pres_tapping tz dj pr k hk
            · rfl
        | absent => rfl
        | null => rfl
        | missingShortName => rfl
    · split
      · exact pres_health tz dj pr k hk
      · rfl

theorem pres_dataStep (tz : Int) (df : Option (Except Unit DataJson))
    (rtype : String) (mvar : Option MetaJson) (pr : ParsedRecord) (skipped : Nat)
    (k : String) (hk : ReservedKey k)
    (hgood : match df with
      | some (.ok dj) => goodData dj = true
      | _ => True) :
    dlookup (dataStep tz df rtype mvar pr skipped).1 k = dlookup pr k := by
  cases df with
  | none => rfl
  | some e =>
    cases e with
    | error u => rfl
    | ok dj =>
      have hp := pres_dispatch tz dj rtype mvar pr k hk hgood
      unfold dataStep
      dsimp only
      cases hd : dispatchData tz dj rtype mvar pr with
      | ok pr1 =>
        rw [hd] at hp
        exact hp
      | error pr1 =>
        rw [hd] at hp
        exact hp

theorem pres_studyStep (sf : Option (Except Unit StudyJson)) (pr : ParsedRecord)
    (skipped : Nat) (k : String) (h1 : k ≠ "study") (h2 : k ≠ "study_version") :
    dlookup (studyStep sf pr skipped).1 k = dlookup pr k := by
  unfold studyStep
  cases sf with
  | none => rfl
  | some e =>
    cases e with
    | error u => rfl
    | ok sj =>
      obtain ⟨sn, ver⟩ := sj
      cases sn with
      | none => rfl
      | some s =>
        cases ver with
        | none =>
          simp only [dlookup]
          exact alookup_dinsert_other pr "study" k (Val.str s) h1
        | some v =>
          simp only [dlookup]
          rw [alookup_dinsert_other _ "study_version" k v h2]
          exact alookup_dinsert_other pr "study" k (Val.str s) h1

theorem pres_metadataApp (mj : MetaJson) (pr : ParsedRecord) (skipped : Nat)
    (k : String) (h1 : k ≠ "app_version") (h2 : k ≠ "timezone") :
    dlookup (metadataApp mj pr skipped).1 k = dlookup pr k := by
  unfold metadataApp
  cases mj.app with
  | none => rfl
  | some app =>
    obtain ⟨ver, bld, tzf⟩ := app
    cases ver with
    | none => cases bld <;> rfl
    | some v =>
      cases bld with
      | none => rfl
      | some b =>
        cases tzf with
        | none =>
          simp only [dlookup]
          exact alookup_dinsert_other pr "app_version" k _ h1
        | some t =>
          simp only [dlookup]
          rw [alookup_dinsert_other _ "timezone" k _ h2]
          exact alookup_dinsert_other pr "app_version" k _ h1

theorem pres_metadataStep (md : Option (Except Unit MetaJson)) (pr : ParsedRecord)
    (skipped : Nat) (mvar : Option MetaJson) (k : String)
    (ha : k ≠ "activity") (h1 : k ≠ "app_version") (h2 : k ≠ "timezone") :
    dlookup (metadataStep md pr skipped mvar).1 k = dlookup pr k := by
  unfold metadataStep
  cases md with
  | none => rfl
  | some e =>
    cases e with
    | error u => rfl
    | ok mj =>
      obtain ⟨act, app⟩ := mj
      cases act with
      | shortName s =>
        dsimp only
        rw [pres_metadataApp ⟨.shortName s, app⟩ _ skipped k h1 h2]
        simp only [dlookup]
        exact alookup_dinsert_other pr "activity" k _ ha
      | missingShortName => rfl
      | absent =>
        dsimp only
        rw [pres_metadataApp ⟨.absent, app⟩ _ skipped k h1 h2]
        simp only [dlookup]
        exact alookup_dinsert_other pr "activity" k _ ha
      | null =>
        dsimp only
        rw [pres_metadataApp ⟨.null, app⟩ _ skipped k h1 h2]
        simp only [dlookup]
        exact alookup_dinsert_other pr "activity" k _ ha

theorem ensure_lookup {α : Type} (l : List (String × α)) (k : String) (v : α) :
    alookup (if (alookup l k).isSome then l else l ++ [(k, v)]) k =
      some ((alookup l k).getD v) := by
  by_cases h : (alookup l k).isSome
  · rw [if_pos h]
    cases hl : alookup l k with
    | none => rw [hl] at h; simp at h
    | some w => simp [hl]
  · rw [if_neg h]
    have hnone : alookup l k = none := by
      cases hl : alookup l k with
      | none => rfl
      | some w => rw [hl] at h; simp at h
    rw [alookup_append_right l _ k hnone, hnone]
    simp [alookup]

theorem ensure_lookup_other {α : Type} (l : List (String × α)) (k k2 : String)
    (v : α) (h : k2 ≠ k) :
    alookup (if (alookup l k).isSome then l else l ++ [(k, v)]) k2 =
      alookup l k2 := by
  by_cases hs : (alookup l k).isSome
  · rw [if_pos hs]
  · rw [if_neg hs]
    by_cases h2 : (alookup l k2).isSome
    · exact alookup_append_left l _ k2 h2
    · have hnone : alookup l k2 = none := by
        cases hl : alookup l k2 with
        | none => rfl
        | some w => rw [hl] at h2; simp at h2
      rw [alookup_append_right l _ k2 hnone, hnone]
      simp [alookup, Ne.symm h]

theorem dlookup_dinsert_self (l : ParsedRecord) (k : String) (v : Val) :
    dlookup (dinsert l k v) k = some v := alookup_dinsert_self l k v

theorem dlookup_dinsert_other (l : ParsedRecord) (k k2 : String) (v : Val)
    (h : k2 ≠ k) : dlookup (dinsert l k v) k2 = dlookup l k2 :=
  alookup_dinsert_other l k k2 v h

theorem processRecord_step (tz : Int) (st : RunState) (rec : RawRecord)
    (st2 : RunState) (hgood : goodRecord rec = true)
    (h : processRecord tz st rec = .ok st2) :
    ∃ fk r,
      alookup st2.output_data fk =
        some (((alookup st.output_data fk).getD []) ++ [r]) ∧
      dlookup r "participant" = some (Val.str rec.participant_id) ∧
      dlookup r "submission_index" =
        some (Val.int (Int.ofNat ((alookup st.participant_responses
          (rec.participant_id ++ ":" ++ fk)).getD 0 + 1))) ∧
      (∀ fk2, fk2 ≠ fk →
        alookup st2.output_data fk2 = alookup st.output_data fk2) ∧
      alookup st2.participant_responses (rec.participant_id ++ ":" ++ fk) =
        some ((alookup st.participant_responses
          (rec.participant_id ++ ":" ++ fk)).getD 0 + 1) ∧
      (∀ sk2, sk2 ≠ rec.participant_id ++ ":" ++ fk →
        alookup st2.participant_responses sk2 =
          alookup st.participant_responses sk2) := by
  have hgd : (match rec.data with
      | some (.ok dj) => goodData dj = true
      | _ => True) := by
    unfold goodRecord at hgood
    cases hd : rec.data with
    | none => trivial
    | some e =>
      cases e with
      | error u => trivial
      | ok dj => rw [hd] at hgood; exact hgood
  unfold processRecord at h
  cases hrt : rlookup RESPONSE_TYPES rec.response_type with
  | none => rw [hrt] at h; exact absurd h (by simp)
  | some rtype =>
    rw [hrt] at h
    dsimp only at h
    set parsed0 := dinsert (dinsert (dinsert [] "id" (Val.str rec.id))
      "participant" (Val.str rec.participant_id))
      "response_type" (Val.str rtype) with hparsed0
    set s1 := studyStep rec.study parsed0 st.skipped with hs1
    set s2 := metadataStep rec.metadata s1.1 s1.2 st.metadataVar with hs2
    set parsed1 := dinsert s2.1 "received_at" (Val.str rec.created_at) with hparsed1
    set s3 := dataStep tz rec.data rtype s2.2.2 parsed1 s2.2.1 with hs3
    have hpart : dlookup s3.1 "participant" = some (Val.str rec.participant_id) := by
      rw [hs3, pres_dataStep tz rec.data rtype s2.2.2 parsed1 s2.2.1 "participant"
        (Or.inl rfl) hgd]
      rw [hparsed1, dlookup_dinsert_other _ "received_at" "participant" _ (by decide)]
      rw [hs2, pres_metadataStep rec.metadata s1.1 s1.2 st.metadataVar "participant"
        (by decide) (by decide) (by decide)]
      rw [hs1, pres_studyStep rec.study parsed0 st.skipped "participant"
        (by decide) (by decide)]
      rw [hparsed0]
      simp [dlookup, dinsert, alookup, aset]
    cases hv : dlookup s3.1 "response_type" with
    | none => rw [hv] at h; exact absurd h (by simp)
    | some rv =>
      rw [hv] at h
      cases ha : dlookup s3.1 "activity" with
      | none => rw [ha] at h; exact absurd h (by simp)
      | some av =>
        rw [ha] at h
        dsimp only at h
        injection h with h2
        subst h2
        dsimp only
        set fk := valToString rv ++ "-" ++ valToString av with hfk
        set skey := rec.participant_id ++ ":" ++ fk with hskey
        set output0 := if (alookup st.output_data fk).isSome = true then
          st.output_data else st.output_data ++ [(fk, [])] with ho0
        set counters0 := if (alookup st.participant_responses skey).isSome = true then
          st.participant_responses else st.participant_responses ++ [(skey, 0)] with hc0
        set cnt := (alookup counters0 skey).getD 0 + 1 with hcnt
        have houtsome : (alookup output0 fk).isSome = true := by
          rw [ho0, ensure_lookup st.output_data fk []]
          rfl
        have hcntsome : (alookup counters0 skey).isSome = true := by
          rw [hc0, ensure_lookup st.participant_responses skey 0]
          rfl
        refine ⟨fk, dinsert s3.1 "submission_index" (Val.int (Int.ofNat cnt)),
          ?_, ?_, ?_, ?_, ?_, ?_⟩
        · rw [alookup_aset_self _ _ _ houtsome]
          rw [ho0, ensure_lookup st.output_data fk []]
          simp
        · rw [dlookup_dinsert_other _ "submission_index" "participant" _ (by decide)]
          exact hpart
        · rw [dlookup_dinsert_self]
          rw [hcnt, hc0, ensure_lookup st.participant_responses skey 0]
          simp
        · intro fk2 hfk2
          rw [alookup_aset_other _ _ fk2 _ hfk2, ho0]
          exact ensure_lookup_other st.output_data fk fk2 [] hfk2
        · rw [alookup_aset_self _ _ _ hcntsome]
          rw [hcnt, hc0, ensure_lookup st.participant_responses skey 0]
          simp
        · intro sk2 hsk2
          rw [alookup_aset_other _ _ sk2 _ hsk2, hc0]
          exact ensure_lookup_other st.participant_responses skey sk2 0 hsk2

theorem append_colon_inj (a1 : List Char) :
    ∀ (a2 b1 b2 : List Char), ':' ∉ a1 → ':' ∉ a2 →
      a1 ++ ':' :: b1 = a2 ++ ':' :: b2 → a1 = a2 ∧ b1 = b2 := by
  induction a1 with
  | nil =>
    intro a2 b1 b2 h1 h2 he
    cases a2 with
    | nil =>
      simp only [List.nil_append, List.cons.injEq] at he
      exact ⟨rfl, he.2⟩
    | cons c a2' =>
      simp only [List.nil_append, List.cons_append, List.cons.injEq] at he
      exact absurd (he.1 ▸ List.mem_cons_self c a2') h2
  | cons c a1' ih =>
    intro a2 b1 b2 h1 h2 he
    cases a2 with
    | nil =>
      simp only [List.nil_append, List.cons_append, List.cons.injEq] at he
      exact absurd (he.1.symm ▸ List.mem_cons_self c a1') h1
    | cons d a2' =>
      simp only [List.cons_append, List.cons.injEq] at he
      obtain ⟨hcd, he2⟩ := he
      obtain ⟨hp, hf⟩ := ih a2' b1 b2
        (fun hm => h1 (List.mem_cons_of_mem _ hm))
        (fun hm => h2 (List.mem_cons_of_mem _ hm)) he2
      exact ⟨by rw [hcd, hp], hf⟩

theorem subkey_inj (p1 f1 p2 f2 : String) (h1 : noColonStr p1 = true)
    (h2 : noColonStr p2 = true) (he : p1 ++ ":" ++ f1 = p2 ++ ":" ++ f2) :
    p1 = p2 ∧ f1 = f2 := by
  have hd : p1.data ++ ':' :: f1.data = p2.data ++ ':' :: f2.data := by
    have hdata := congrArg String.data he
    simpa [String.data_append] using hdata
  have hn1 : ':' ∉ p1.data := by
    intro hm
    have := List.all_eq_true.mp h1 _ hm
    simp at this
  have hn2 : ':' ∉ p2.data := by
    intro hm
    have := List.all_eq_true.mp h2 _ hm
    simp at this
  obtain ⟨hp, hf⟩ := append_colon_inj p1.data p2.data f1.data f2.data hn1 hn2 hd
  constructor
  · cases p1; cases p2; exact congrArg String.mk hp
  · cases f1; cases f2; exact congrArg String.mk hf

theorem recordsOf_append_match (buf : List ParsedRecord) (r : ParsedRecord)
    (p : String) (h : dlookup r "participant" = some (Val.str p)) :
    recordsOf (buf ++ [r]) p = recordsOf buf p ++ [r] := by
  unfold recordsOf
  rw [List.filter_append]
  simp [h]

theorem recordsOf_append_nomatch (buf : List ParsedRecord) (r : ParsedRecord)
    (p q : String) (hpq : q ≠ p)
    (h : dlookup r "participant" = some (Val.str q)) :
    recordsOf (buf ++ [r]) p = recordsOf buf p := by
  unfold recordsOf
  rw [List.filter_append]
  simp [h, hpq]

theorem submissionIdxList_append_match (buf : List ParsedRecord)
    (r : ParsedRecord) (p : String)
    (h : dlookup r "participant" = some (Val.str p)) :
    submissionIdxList (buf ++ [r]) p =
      submissionIdxList buf p ++ [dlookup r "submission_index"] := by
  unfold submissionIdxList
  rw [recordsOf_append_match buf r p h]
  simp

theorem counterInvariant_init : CounterInvariant initState := by
  intro fk p hp
  simp [initState, alookup, recordsOf, submissionIdxList]

theorem counterInvariant_step (tz : Int) (st : RunState) (rec : RawRecord)
    (st2 : RunState) (hgood : goodRecord rec = true)
    (hcol : noColonStr rec.participant_id = true)
    (h : processRecord tz st rec = .ok st2) (hinv : CounterInvariant st) :
    CounterInvariant st2 := by
  obtain ⟨fk, r, hbuf, hrp, hri, hbufo, hcnt, hcnto⟩ :=
    processRecord_step tz st rec st2 hgood h
  intro fk2 p hp
  obtain ⟨hc1, hc2⟩ := hinv fk2 p hp
  by_cases hfk : fk2 = fk
  · subst hfk
    by_cases hpp : p = rec.participant_id
    · subst hpp
      rw [hbuf, hcnt]
      simp only [Option.getD_some]
      constructor
      · rw [recordsOf_append_match _ r _ hrp, List.length_append, hc1]
        simp
      · rw [submissionIdxList_append_match _ r _ hrp,
          recordsOf_append_match _ r _ hrp, hri, hc2,
          List.length_append, List.length_singleton, List.range_succ]
        simp [hc1]
    · rw [hbuf]
      simp only [Option.getD_some]
      have hsk : p ++ ":" ++ fk2 ≠ rec.participant_id ++ ":" ++ fk2 := by
        intro he
        exact hpp (subkey_inj p fk2 rec.participant_id fk2 hp hcol he).1
      rw [hcnto _ hsk]
      rw [recordsOf_append_nomatch _ r p rec.participant_id
        (fun he => hpp he.symm) hrp]
      refine ⟨hc1, ?_⟩
      unfold submissionIdxList at hc2 ⊢
      rw [recordsOf_append_nomatch _ r p rec.participant_id
        (fun he => hpp he.symm) hrp]
      exact hc2
  · rw [hbufo fk2 hfk]
    have hsk : p ++ ":" ++ fk2 ≠ rec.participant_id ++ ":" ++ fk := by
      intro he
      exact hfk (subkey_inj p fk2 rec.participant_id fk hp hcol he).2
    rw [hcnto _ hsk]
    exact ⟨hc1, hc2⟩

theorem mainLoopFrom_inv (tz : Int) :
    ∀ (records : List RawRecord) (st st2 : RunState),
      (∀ r ∈ records, goodRecord r = true) →
      (∀ r ∈ records, noColonStr r.participant_id = true) →
      CounterInvariant st → mainLoopFrom tz st records = .ok st2 →
      CounterInvariant st2 := by
  intro records
  induction records with
  | nil =>
    intro st st2 _ _ hinv h
    cases h
    exact hinv
  | cons rec rest ih =>
    intro st st2 hg hc hinv h
    simp only [mainLoopFrom] at h
    cases hp : processRecord tz st rec with
    | error e => rw [hp] at h; exact absurd h (by simp)
    | ok st3 =>
      rw [hp] at h
      exact ih st3 st2 (fun r hr => hg r (by simp [hr]))
        (fun r hr => hc r (by simp [hr]))
        (counterInvariant_step tz st rec st3 (hg rec (by simp))
          (hc rec (by simp)) hp hinv) h

/-- C1: across a whole run, for every output group key and every
(colon-free) participant, the records of that participant in that group
carry submission_index 1, 2, 3, ... in processing order: the n-th record
of a (participant, group) pair is stamped n.  The hypotheses ask that
questionnaire payloads do not reuse the loop's own column names and that
participant ids contain no colon (the `pid:file_key` counter encoding is
only unambiguous then). -/
theorem c1_submission_index (tz : Int) (records : List RawRecord) (st : RunState)
    (hgood : ∀ r ∈ records, goodRecord r = true)
    (hcolon : ∀ r ∈ records, noColonStr r.participant_id = true)
    (hrun : mainLoop tz records = .ok st) :
    ∀ fk p, noColonStr p = true →
      submissionIdxList ((alookup st.output_data fk).getD []) p =
        (List.range (recordsOf ((alookup st.output_data fk).getD []) p).length).map
          (fun i => some (Val.int (Int.ofNat (i + 1)))) :=
  fun fk p hp =>
    ((mainLoopFrom_inv tz records initState st hgood hcolon
      counterInvariant_init hrun) fk p hp).2

/-- Witness for `c1_submission_index`: participant P1 submits act1 twice
and act2 once; the act1 buffer carries indices 1 and 2. -/
theorem c1_submission_index_witness :
    submissionIdxList ((alookup (runStateOr initState (mainLoop 0
      [⟨"r1", "P1", 3, "c1", none, some (.ok ⟨.shortName "act1", none⟩), none⟩,
       ⟨"r2", "P1", 3, "c2", none, some (.ok ⟨.shortName "act1", none⟩), none⟩,
       ⟨"r3", "P1", 3, "c3", none, some (.ok ⟨.shortName "act2", none⟩), none⟩])).output_data
        "healthdata-act1").getD []) "P1" =
      (List.range (recordsOf ((alookup (runStateOr initState (mainLoop 0
        [⟨"r1", "P1", 3, "c1", none, some (.ok ⟨.shortName "act1", none⟩), none⟩,
         ⟨"r2", "P1", 3, "c2", none, some (.ok ⟨.shortName "act1", none⟩), none⟩,
         ⟨"r3", "P1", 3, "c3", none, some (.ok ⟨.shortName "act2", none⟩), none⟩])).output_data
          "healthdata-act1").getD []) "P1").length).map
        (fun i => some (Val.int (Int.ofNat (i + 1)))) :=
  c1_submission_index 0
    [⟨"r1", "P1", 3, "c1", none, some (.ok ⟨.shortName "act1", none⟩), none⟩,
     ⟨"r2", "P1", 3, "c2", none, some (.ok ⟨.shortName "act1", none⟩), none⟩,
     ⟨"r3", "P1", 3, "c3", none, some (.ok ⟨.shortName "act2", none⟩), none⟩]
    (runStateOr initState (mainLoop 0
      [⟨"r1", "P1", 3, "c1", none, some (.ok ⟨.shortName "act1", none⟩), none⟩,
       ⟨"r2", "P1", 3, "c2", none, some (.ok ⟨.shortName "act1", none⟩), none⟩,
       ⟨"r3", "P1", 3, "c3", none, some (.ok ⟨.shortName "act2", none⟩), none⟩]))
    (by decide) (by decide) (by rfl) "healthdata-act1" "P1" (by decide)

/-! ### Claims C8 and C9 -/

/-- C8 counterexample: a record with response-type code 4 aborts the
whole run with an uncaught `KeyError` (line 119 sits outside every
`try`); the record is not counted as skipped — the run dies — and the
following well-formed record is never processed. -/
theorem c8_counterexample :
    mainLoop 0 [⟨"r1", "P1", 4, "c1", none, none, none⟩,
      ⟨"r2", "P2", 3, "c2", none, some (.ok ⟨.shortName "a", none⟩), none⟩] =
      .error .unknownResponseType := by rfl

/-- C8 amended: a response-type code outside {1, 2, 3} raises an
uncaught `KeyError` at the `RESPONSE_TYPES` lookup, aborting the entire
run: the record is not counted as skipped, and no later record is
processed. -/
theorem c8_response_type_aborts (tz : Int) (st : RunState) (rec : RawRecord)
    (rest : List RawRecord) (h1 : rec.response_type ≠ 1)
    (h2 : rec.response_type ≠ 2) (h3 : rec.response_type ≠ 3) :
    mainLoopFrom tz st (rec :: rest) = .error .unknownResponseType := by
  have hl : rlookup RESPONSE_TYPES rec.response_type = none := by
    simp [rlookup, RESPONSE_TYPES, Ne.symm h1, Ne.symm h2, Ne.symm h3]
  simp only [mainLoopFrom]
  unfold processRecord
  rw [hl]

/-- Witness for `c8_response_type_aborts`. -/
theorem c8_response_type_aborts_witness :
    mainLoopFrom 0 initState [⟨"r1", "P1", 4, "c1", none, none, none⟩] =
      .error .unknownResponseType :=
  c8_response_type_aborts 0 initState ⟨"r1", "P1", 4, "c1", none, none, none⟩ []
    (by decide) (by decide) (by decide)

/-- C9 counterexample: a record with no `metadata` field never gets an
`activity` column, so the `file_key` construction of lines 195-198
raises an uncaught `KeyError` and the run aborts — the claim's "always
defined, defaulting to \"all\"" does not hold when metadata is absent. -/
theorem c9_counterexample :
    mainLoop 0 [⟨"r1", "P1", 3, "c1", none, none, none⟩] =
      .error .missingFileKeyField := by rfl

/-- C9 amended: the `activity` column (and hence the group key) is
defined only when the `metadata` field is present and parses: it equals
`metadata.activity.short_name` when the activity entry carries one, and
the literal "all" when the entry is absent or null, yielding the
well-formed group key `<response_type>-<activity>`; when metadata itself
is absent or unparseable the column is never set and the run aborts at
the group-key construction (and an activity object without `short_name`
likewise aborts the run after counting the record as skipped). -/
theorem c9_activity_defined (tz : Int) (st : RunState) (rec : RawRecord)
    (mj : MetaJson) (rtype s : String)
    (hmd : rec.metadata = some (.ok mj)) (hgood : goodRecord rec = true)
    (hrt : rlookup RESPONSE_TYPES rec.response_type = some rtype)
    (hcase : (mj.activity = .shortName s) ∨
      ((mj.activity = .absent ∨ mj.activity = .null) ∧ s = "all")) :
    ∃ st2 r, processRecord tz st rec = .ok st2 ∧
      dlookup r "activity" = some (Val.str s) ∧
      alookup st2.output_data (rtype ++ "-" ++ s) =
        some (((alookup st.output_data (rtype ++ "-" ++ s)).getD []) ++ [r]) := by
  have hgd : (match rec.data with
      | some (.ok dj) => goodData dj = true
      | _ => True) := by
    unfold goodRecord at hgood
    cases hd : rec.data with
    | none => trivial
    | some e =>
      cases e with
      | error u => trivial
      | ok dj => rw [hd] at hgood; exact hgood
  unfold processRecord
  rw [hrt]
  dsimp only
  set parsed0 := dinsert (dinsert (dinsert [] "id" (Val.str rec.id))
    "participant" (Val.str rec.participant_id))
    "response_type" (Val.str rtype) with hparsed0
  set s1 := studyStep rec.study parsed0 st.skipped with hs1
  set s2 := metadataStep rec.metadata s1.1 s1.2 st.metadataVar with hs2
  set parsed1 := dinsert s2.1 "received_at" (Val.str rec.created_at) with hparsed1
  set s3 := dataStep tz rec.data rtype s2.2.2 parsed1 s2.2.1 with hs3
  have hacts : dlookup s2.1 "activity" = some (Val.str s) := by
    rw [hs2, hmd]
    unfold metadataStep
    dsimp only
    rcases hcase with hact | ⟨hact, hs⟩
    · rw [hact]
      dsimp only
      rw [pres_metadataApp mj _ s1.2 "activity" (by decide) (by decide)]
      exact dlookup_dinsert_self _ _ _
    · subst hs
      rcases hact with hact | hact <;>
        (rw [hact]; dsimp only;
         rw [pres_metadataApp mj _ s1.2 "activity" (by decide) (by decide)];
         exact dlookup_dinsert_self _ _ _)
  have hactivity : dlookup s3.1 "activity" = some (Val.str s) := by
    rw [hs3, pres_dataStep tz rec.data rtype s2.2.2 parsed1 s2.2.1 "activity"
      (Or.inr (Or.inr (Or.inl rfl))) hgd]
    rw [hparsed1, dlookup_dinsert_other _ "received_at" "activity" _ (by decide)]
    exact hacts
  have hrv : dlookup s3.1 "response_type" = some (Val.str rtype) := by
    rw [hs3, pres_dataStep tz rec.data rtype s2.2.2 parsed1 s2.2.1 "response_type"
      (Or.inr (Or.inr (Or.inr rfl))) hgd]
    rw [hparsed1, dlookup_dinsert_other _ "received_at" "response_type" _ (by decide)]
    rw [hs2, pres_metadataStep rec.metadata s1.1 s1.2 st.metadataVar "response_type"
      (by decide) (by decide) (by decide)]
    rw [hs1, pres_studyStep rec.study parsed0 st.skipped "response_type"
      (by decide) (by decide)]
    rw [hparsed0]
    exact dlookup_dinsert_self _ _ _
  rw [hrv, hactivity]
  dsimp only [valToString]
  set fk := rtype ++ "-" ++ s with hfk
  set skey := rec.participant_id ++ ":" ++ fk with hskey
  set output0 := if (alookup st.output_data fk).isSome = true then
    st.output_data else st.output_data ++ [(fk, [])] with ho0
  set counters0 := if (alookup st.participant_responses skey).isSome = true then
    st.participant_responses else st.participant_responses ++ [(skey, 0)] with hc0
  set cnt := (alookup counters0 skey).getD 0 + 1 with hcnt
  have houtsome : (alookup output0 fk).isSome = true := by
    rw [ho0, ensure_lookup st.output_data fk []]
    rfl
  refine ⟨_, dinsert s3.1 "submission_index" (Val.int (Int.ofNat cnt)), rfl,
    ?_, ?_⟩
  · rw [dlookup_dinsert_other _ "submission_index" "activity" _ (by decide)]
    exact hactivity
  · dsimp only
    rw [alookup_aset_self _ _ _ houtsome]
    rw [ho0, ensure_lookup st.output_data fk []]
    simp

/-- Witness for `c9_activity_defined` on a record whose metadata carries
a null activity entry: the column defaults to "all". -/
theorem c9_activity_defined_witness :
    ∃ st2 r, processRecord 0 initState
      ⟨"r1", "P1", 3, "c1", none, some (.ok ⟨.null, none⟩), none⟩ = .ok st2 ∧
      dlookup r "activity" = some (Val.str "all") ∧
      alookup st2.output_data ("healthdata" ++ "-" ++ "all") =
        some (((alookup initState.output_data
          ("healthdata" ++ "-" ++ "all")).getD []) ++ [r]) :=
  c9_activity_defined 0 initState
    ⟨"r1", "P1", 3, "c1", none, some (.ok ⟨.null, none⟩), none⟩
    ⟨.null, none⟩ "healthdata" "all" rfl (by decide) (by decide)
    (Or.inr ⟨Or.inr rfl, rfl⟩)

/-- C7 counterexample: a record whose `study` sub-field fails to parse is
counted as skipped, yet the bare `next` of line 136 is a no-op expression
(not `continue`), so the partially populated record — lacking its `study`
column — is still appended to its output group's buffer. -/
theorem c7_counterexample :
    ∃ st2, mainLoop 0 [⟨"r7", "P7", 3, "c7", some (.error ()),
        some (.ok ⟨.null, none⟩), none⟩] = .ok st2 ∧
      st2.skipped = 1 ∧
      ∃ r, alookup st2.output_data "healthdata-all" = some [r] ∧
        dlookup r "id" = some (Val.str "r7") ∧
        dlookup r "study" = none := by
  exact ⟨_, rfl, rfl, _, rfl, rfl, rfl⟩

/-- C7 amended: when parsing the `study` sub-field raises, the exception
is caught and the skip tally is incremented, but — the bare `next` of
line 136 being a no-op expression rather than `continue` — processing of
the same record carries on, and the partially populated record, with no
`study` or `study_version` column, is still appended to its output
group's buffer. -/
theorem c7_study_failure_appends (tz : Int) (st : RunState) (rec : RawRecord)
    (mj : MetaJson) (rtype s : String)
    (hst : rec.study = some (.error ()))
    (hmd : rec.metadata = some (.ok mj))
    (hact : mj.activity = .shortName s)
    (happ : mj.app = none)
    (hdata : rec.data = none)
    (hrt : rlookup RESPONSE_TYPES rec.response_type = some rtype) :
    ∃ st2 r, processRecord tz st rec = .ok st2 ∧
      st2.skipped = st.skipped + 1 ∧
      dlookup r "study" = none ∧
      dlookup r "study_version" = none ∧
      dlookup r "id" = some (Val.str rec.id) ∧
      alookup st2.output_data (rtype ++ "-" ++ s) =
        some (((alookup st.output_data (rtype ++ "-" ++ s)).getD []) ++ [r]) := by
  unfold processRecord
  rw [hrt]
  dsimp only
  set parsed0 := dinsert (dinsert (dinsert [] "id" (Val.str rec.id))
    "participant" (Val.str rec.participant_id))
    "response_type" (Val.str rtype) with hparsed0
  set s1 := studyStep rec.study parsed0 st.skipped with hs1
  set s2 := metadataStep rec.metadata s1.1 s1.2 st.metadataVar with hs2
  set parsed1 := dinsert s2.1 "received_at" (Val.str rec.created_at) with hparsed1
  set s3 := dataStep tz rec.data rtype s2.2.2 parsed1 s2.2.1 with hs3
  have hs1v : s1 = (parsed0, st.skipped + 1) := by
    rw [hs1, hst]
    rfl
  have hs2v : s2 = (dinsert parsed0 "activity" (Val.str s),
      st.skipped + 1, some mj) := by
    rw [hs2, hmd]
    unfold metadataStep
    dsimp only
    rw [hact]
    dsimp only
    unfold metadataApp
    rw [happ]
    dsimp only
    rw [hs1v]
  have hs3v : s3 = (parsed1, st.skipped + 1) := by
    rw [hs3, hdata]
    dsimp only [dataStep]
    rw [hs2v]
  have hp1 : parsed1 = dinsert (dinsert parsed0 "activity" (Val.str s))
      "received_at" (Val.str rec.created_at) := by
    rw [hparsed1, hs2v]
  have hrv : dlookup s3.1 "response_type" = some (Val.str rtype) := by
    rw [hs3v]
    dsimp only
    rw [hp1, hparsed0]
    simp [dlookup, dinsert, aset, alookup]
  have hactivity : dlookup s3.1 "activity" = some (Val.str s) := by
    rw [hs3v]
    dsimp only
    rw [hp1, hparsed0]
    simp [dlookup, dinsert, aset, alookup]
  rw [hrv, hactivity]
  dsimp only [valToString]
  set fk := rtype ++ "-" ++ s with hfk
  set skey := rec.participant_id ++ ":" ++ fk with hskey
  set output0 := if (alookup st.output_data fk).isSome = true then
    st.output_data else st.output_data ++ [(fk, [])] with ho0
  set counters0 := if (alookup st.participant_responses skey).isSome = true then
    st.participant_responses else st.participant_responses ++ [(skey, 0)] with hc0
  set cnt := (alookup counters0 skey).getD 0 + 1 with hcnt
  have houtsome : (alookup output0 fk).isSome = true := by
    rw [ho0, ensure_lookup st.output_data fk []]
    rfl
  refine ⟨_, dinsert s3.1 "submission_index" (Val.int (Int.ofNat cnt)), rfl,
    ?_, ?_, ?_, ?_, ?_⟩
  · show s3.2 = st.skipped + 1
    rw [hs3v]
  · rw [dlookup_dinsert_other _ "submission_index" "study" _ (by decide)]
    rw [hs3v]
    dsimp only
    rw [hp1, hparsed0]
    simp [dlookup, dinsert, aset, alookup]
  · rw [dlookup_dinsert_other _ "submission_index" "study_version" _ (by decide)]
    rw [hs3v]
    dsimp only
    rw [hp1, hparsed0]
    simp [dlookup, dinsert, aset, alookup]
  · rw [dlookup_dinsert_other _ "submission_index" "id" _ (by decide)]
    rw [hs3v]
    dsimp only
    rw [hp1, hparsed0]
    simp [dlookup, dinsert, aset, alookup]
  · dsimp only
    rw [alookup_aset_self _ _ _ houtsome]
    rw [ho0, ensure_lookup st.output_data fk []]
    simp

/-- Witness for `c7_study_failure_appends`. -/
theorem c7_study_failure_appends_witness :
    ∃ st2 r, processRecord 0 initState
      ⟨"r7w", "P7w", 2, "c7w", some (.error ()),
        some (.ok ⟨.shortName "at_walk", none⟩), none⟩ = .ok st2 ∧
      st2.skipped = initState.skipped + 1 ∧
      dlookup r "study" = none ∧
      dlookup r "study_version" = none ∧
      dlookup r "id" = some (Val.str "r7w") ∧
      alookup st2.output_data ("task" ++ "-" ++ "at_walk") =
        some (((alookup initState.output_data
          ("task" ++ "-" ++ "at_walk")).getD []) ++ [r]) :=
  c7_study_failure_appends 0 initState
    ⟨"r7w", "P7w", 2, "c7w", some (.error ()),
      some (.ok ⟨.shortName "at_walk", none⟩), none⟩
    ⟨.shortName "at_walk", none⟩ "task" "at_walk" rfl rfl rfl rfl rfl rfl

/-- C10: for a questionnaire record whose activity short name is
"qes_final", the dispatch of lines 175-180 only prints "Not supported"
and runs no normalizer — not even the shared timestamp extraction — so
the record appended to the "questionnaire-qes_final" output group
carries exactly the common fields (id, participant, response_type,
study, study_version, activity, app_version, timezone, received_at)
plus submission_index, with no timestamp-derived or payload columns,
whatever the `data` sub-field holds. -/
theorem c10_qes_final_common_fields (tz : Int) (st : RunState)
    (rec : RawRecord) (dj : DataJson) (sn : String) (sv : Val)
    (av ab tzs : String)
    (hresp : rec.response_type = 1)
    (hst : rec.study = some (.ok ⟨some sn, some sv⟩))
    (hmd : rec.metadata = some (.ok ⟨.shortName "qes_final",
      some ⟨some av, some ab, some tzs⟩⟩))
    (hdata : rec.data = some (.ok dj)) :
    ∃ st2 cnt, processRecord tz st rec = .ok st2 ∧
      st2.skipped = st.skipped ∧
      alookup st2.output_data "questionnaire-qes_final" =
        some (((alookup st.output_data "questionnaire-qes_final").getD []) ++
          [[("id", Val.str rec.id),
            ("participant", Val.str rec.participant_id),
            ("response_type", Val.str "questionnaire"),
            ("study", Val.str sn),
            ("study_version", sv),
            ("activity", Val.str "qes_final"),
            ("app_version", Val.str (av ++ " - " ++ ab)),
            ("timezone", Val.str tzs),
            ("received_at", Val.str rec.created_at),
            ("submission_index", Val.int (Int.ofNat cnt))]]) := by
  have hrt : rlookup RESPONSE_TYPES rec.response_type =
      some "questionnaire" := by
    rw [hresp]
    rfl
  unfold processRecord
  rw [hrt]
  dsimp only
  set parsed0 := dinsert (dinsert (dinsert [] "id" (Val.str rec.id))
    "participant" (Val.str rec.participant_id))
    "response_type" (Val.str "questionnaire") with hparsed0
  set s1 := studyStep rec.study parsed0 st.skipped with hs1
  set s2 := metadataStep rec.metadata s1.1 s1.2 st.metadataVar with hs2
  set parsed1 := dinsert s2.1 "received_at" (Val.str rec.created_at) with hparsed1
  set s3 := dataStep tz rec.data "questionnaire" s2.2.2 parsed1 s2.2.1 with hs3
  have hs1v : s1 = (dinsert (dinsert parsed0 "study" (Val.str sn))
      "study_version" sv, st.skipped) := by
    rw [hs1, hst]
    rfl
  have hs2v : s2 = (dinsert (dinsert (dinsert s1.1 "activity"
      (Val.str "qes_final")) "app_version" (Val.str (av ++ " - " ++ ab)))
      "timezone" (Val.str tzs), s1.2,
      some ⟨.shortName "qes_final", some ⟨some av, some ab, some tzs⟩⟩) := by
    rw [hs2, hmd]
    rfl
  have hs3v : s3 = (parsed1, s2.2.1) := by
    rw [hs3, hdata, show s2.2.2 = some (⟨.shortName "qes_final",
      some ⟨some av, some ab, some tzs⟩⟩ : MetaJson) from by rw [hs2v]]
    rfl
  have hplit : parsed1 = [("id", Val.str rec.id),
      ("participant", Val.str rec.participant_id),
      ("response_type", Val.str "questionnaire"),
      ("study", Val.str sn), ("study_version", sv),
      ("activity", Val.str "qes_final"),
      ("app_version", Val.str (av ++ " - " ++ ab)),
      ("timezone", Val.str tzs),
      ("received_at", Val.str rec.created_at)] := by
    rw [hparsed1, hs2v]
    dsimp only
    rw [hs1v]
    dsimp only
    rw [hparsed0]
    rfl
  have hrv : dlookup s3.1 "response_type" =
      some (Val.str "questionnaire") := by
    rw [hs3v]
    dsimp only
    rw [hplit]
    rfl
  have hactivity : dlookup s3.1 "activity" = some (Val.str "qes_final") := by
    rw [hs3v]
    dsimp only
    rw [hplit]
    rfl
  rw [hrv, hactivity]
  dsimp only [valToString]
  have hfk : ("questionnaire" ++ "-" ++ "qes_final" : String) =
      "questionnaire-qes_final" := rfl
  rw [hfk]
  set skey := rec.participant_id ++ ":" ++ "questionnaire-qes_final" with hskey
  set output0 := if (alookup st.output_data
      "questionnaire-qes_final").isSome = true then
    st.output_data
  else st.output_data ++ [("questionnaire-qes_final", [])] with ho0
  set counters0 := if (alookup st.participant_responses skey).isSome = true then
    st.participant_responses
  else st.participant_responses ++ [(skey, 0)] with hc0
  set cnt := (alookup counters0 skey).getD 0 + 1 with hcnt
  have houtsome : (alookup output0 "questionnaire-qes_final").isSome = true := by
    rw [ho0, ensure_lookup st.output_data _ []]
    rfl
  refine ⟨_, cnt, rfl, ?_, ?_⟩
  · show s3.2 = st.skipped
    rw [hs3v]
    dsimp only
    rw [hs2v]
    dsimp only
    rw [hs1v]
  · dsimp only
    rw [alookup_aset_self _ _ _ houtsome]
    rw [ho0, ensure_lookup st.output_data _ []]
    simp only [Option.getD_some]
    rw [hs3v]
    dsimp only
    rw [hplit]
    rfl

/-- Witness for `c10_qes_final_common_fields`. -/
theorem c10_qes_final_common_fields_witness :
    ∃ st2 cnt, processRecord 0 initState
      ⟨"r10", "P10", 1, "c10", some (.ok ⟨some "sA", some (Val.str "v2")⟩),
        some (.ok ⟨.shortName "qes_final",
          some ⟨some "1.0", some "42", some "UTC"⟩⟩),
        some (.ok ⟨none, none, none, none, [], none, none⟩)⟩ = .ok st2 ∧
      st2.skipped = initState.skipped ∧
      alookup st2.output_data "questionnaire-qes_final" =
        some (((alookup initState.output_data
            "questionnaire-qes_final").getD []) ++
          [[("id", Val.str "r10"),
            ("participant", Val.str "P10"),
            ("response_type", Val.str "questionnaire"),
            ("study", Val.str "sA"),
            ("study_version", Val.str "v2"),
            ("activity", Val.str "qes_final"),
            ("app_version", Val.str ("1.0" ++ " - " ++ "42")),
            ("timezone", Val.str "UTC"),
            ("received_at", Val.str "c10"),
            ("submission_index", Val.int (Int.ofNat cnt))]]) :=
  c10_qes_final_common_fields 0 initState
    ⟨"r10", "P10", 1, "c10", some (.ok ⟨some "sA", some (Val.str "v2")⟩),
      some (.ok ⟨.shortName "qes_final",
        some ⟨some "1.0", some "42", some "UTC"⟩⟩),
      some (.ok ⟨none, none, none, none, [], none, none⟩)⟩
    ⟨none, none, none, none, [], none, none⟩ "sA" (Val.str "v2")
    "1.0" "42" "UTC" rfl rfl rfl rfl
